import Mathlib

/-!
Shallow embedding of the CANopenNode LSS master (src/305/CO_LSSmaster.c) and of the
EEPROM storage engine (src/storage/CO_storageEeprom.c), together with theorems that
settle the behavioural claims about them.

Machine integers are modelled as Nat with explicit reductions modulo 2^32 where the C
code can overflow (the 32-bit timeout accumulator and the fastscan id number).
CAN frames are eight explicit byte fields.  Driving operations are pure functions from
the master state (plus elapsed time and arguments) to a result code, a new state and
the list of frames handed to CO_CANsend, mirroring the C statement order.
-/

namespace CANopenNode

/-- One 8-byte CAN data frame, byte 0 is the LSS command specifier. -/
structure Frame where
  b0 : Nat
  b1 : Nat
  b2 : Nat
  b3 : Nat
  b4 : Nat
  b5 : Nat
  b6 : Nat
  b7 : Nat
deriving DecidableEq, Repr

/-- The all-zero frame. -/
def zeroFrame : Frame := ⟨0, 0, 0, 0, 0, 0, 0, 0⟩

/-- Effect of CO_setUint32(&data[1], CO_SWAP_32 v): bytes 1..4 receive the
little-endian representation of the 32-bit value v (spec 4.1: the wire is
little-endian regardless of the host). -/
def setUint32LE (f : Frame) (v : Nat) : Frame :=
  { f with b1 := v % 256, b2 := (v >>> 8) % 256, b3 := (v >>> 16) % 256, b4 := (v >>> 24) % 256 }

/-- CO_getUint32 + CO_SWAP_32 on bytes 1..4 of a received frame: little-endian decode. -/
def frameValue32 (f : Frame) : Nat :=
  f.b1 % 256 + (f.b2 % 256) * 256 + (f.b3 % 256) * 65536 + (f.b4 % 256) * 16777216

/-- Modelled from the spec: the CO_LSSmaster_return_t result codes of CO_LSSmaster.h
(the header is not part of the sources).  The spec fixes which codes are errors:
TIMEOUT, ILLEGAL_ARGUMENT, INVALID_STATE, SCAN_NOACK and SCAN_FAILED are less than OK,
while WAIT_SLAVE, SCAN_FINISHED, OK_MANUFACTURER and OK_ILLEGAL_ARGUMENT are not. -/
inductive LSSret where
  | SCAN_FINISHED
  | WAIT_SLAVE
  | OK
  | TIMEOUT
  | ILLEGAL_ARGUMENT
  | INVALID_STATE
  | SCAN_NOACK
  | SCAN_FAILED
  | OK_MANUFACTURER
  | OK_ILLEGAL_ARGUMENT
deriving DecidableEq, Repr

/-- Modelled from the spec: numeric values of CO_LSSmaster_return_t, used for the C
comparison `ret < CO_LSSmaster_OK`.  Only the sign of each value matters for the code. -/
def LSSret.toInt : LSSret → Int
  | .SCAN_FINISHED => 2
  | .WAIT_SLAVE => 1
  | .OK => 0
  | .TIMEOUT => -1
  | .ILLEGAL_ARGUMENT => -2
  | .INVALID_STATE => -3
  | .SCAN_NOACK => -4
  | .SCAN_FAILED => -5
  | .OK_MANUFACTURER => 3
  | .OK_ILLEGAL_ARGUMENT => 4

/-!
LSS master state constants, from CO_LSSmaster.c:
state: WAITING = 0, CFG_SLECTIVE = 1, CFG_GLOBAL = 2;
command: WAITING = 0, SWITCH_STATE = 1, CFG_BIT_TIMING = 2, CFG_NODE_ID = 3,
CFG_STORE = 4, INQUIRE_VENDOR = 5, INQUIRE_PRODUCT = 6, INQUIRE_REV = 7,
INQUIRE_SERIAL = 8, INQUIRE = 9, IDENTIFY_FASTSCAN = 10;
fastscan state: CHECK = 0, SCAN = 1, VERIFY = 2.

Modelled from the spec: the LSS command specifiers of CO_LSS.h (header not in the
sources; values from spec section 6): SWITCH_GLOBAL = 0x04, SEL_VENDOR..SEL_SERIAL =
0x40..0x43, SEL = 0x44, CFG_NODE_ID = 0x11, CFG_BIT_TIMING = 0x13,
CFG_ACTIVATE_BIT_TIMING = 0x15, CFG_STORE = 0x17, INQUIRE_VENDOR..SERIAL = 0x5A..0x5D,
IDENT_FASTSCAN = 0x51, IDENT_SLAVE = 0x4F; LSS states WAITING = 0, CONFIGURATION = 1;
fastscan bit positions BIT31 = 31, BIT0 = 0, CONFIRM = 0x80; field indices
VENDOR = 0, PRODUCT = 1, REV = 2, SERIAL = 3; unconfigured node id 0xFF.
-/

/-- An LSS address: the four 32-bit identity fields (CO_LSS_address_t). -/
structure LSSaddress where
  vendorID : Nat
  productCode : Nat
  revisionNumber : Nat
  serialNumber : Nat
deriving DecidableEq, Repr

/-- The LSS master state (CO_LSSmaster_t), without the CAN-module plumbing.
txData is the persistent transmit buffer TXbuff->data: the C code reuses it across
services and does not always clear every byte. -/
structure LSSmaster where
  state : Nat
  command : Nat
  timeoutTimer : Nat
  timeout_us : Nat
  CANrxNew : Bool
  CANrxData : Frame
  fsState : Nat
  fsLssSub : Nat
  fsBitChecked : Nat
  fsIdNumber : Nat
  txData : Frame
deriving DecidableEq, Repr

/-- Result of one driving call: return code, new master state, frames sent via
CO_CANsend during the call (in order). -/
structure LSSstep where
  ret : LSSret
  m : LSSmaster
  tx : List Frame
deriving DecidableEq, Repr

/-- CO_LSSmaster_check_timeout: accumulate elapsed time into the 32-bit timer; on
reaching timeout_us reset the timer and report TIMEOUT, else WAIT_SLAVE. -/
def CO_LSSmaster_check_timeout (m : LSSmaster) (td : Nat) : LSSret × LSSmaster :=
  let t := (m.timeoutTimer + td) % 4294967296
  if m.timeout_us ≤ t then (.TIMEOUT, { m with timeoutTimer := 0 })
  else (.WAIT_SLAVE, { m with timeoutTimer := t })

/-- Helper of CO_LSSmaster_swStateSelect: initiate switch state (select or global).
Selective: state := CFG_SLECTIVE, command := SWITCH_STATE, timer reset, rx flag
cleared, bytes 6..7 of the transmit buffer zeroed (the C memset starts at data[6];
byte 5 keeps its previous content), then the four SEL frames are sent.
Global: state := CFG_GLOBAL and one SWITCH_GLOBAL/CONFIGURATION frame is sent. -/
def CO_LSSmaster_switchStateSelectInitiate (m : LSSmaster) (lssAddress : Option LSSaddress) :
    LSSstep :=
  match lssAddress with
  | some a =>
    let m1 : LSSmaster :=
      { m with state := 1, command := 1, timeoutTimer := 0, CANrxNew := false,
               txData := { m.txData with b6 := 0, b7 := 0 } }
    let f1 := setUint32LE { m1.txData with b0 := 0x40 } a.vendorID
    let f2 := setUint32LE { f1 with b0 := 0x41 } a.productCode
    let f3 := setUint32LE { f2 with b0 := 0x42 } a.revisionNumber
    let f4 := setUint32LE { f3 with b0 := 0x43 } a.serialNumber
    { ret := .WAIT_SLAVE, m := { m1 with txData := f4 }, tx := [f1, f2, f3, f4] }
  | none =>
    let f : Frame := { m.txData with b0 := 0x04, b1 := 1, b2 := 0, b3 := 0, b4 := 0,
                                     b5 := 0, b6 := 0, b7 := 0 }
    { ret := .OK, m := { m with state := 2, CANrxNew := false, txData := f }, tx := [f] }

/-- Helper of CO_LSSmaster_swStateSelect: wait for the SEL confirmation frame. -/
def CO_LSSmaster_switchStateSelectWait (m : LSSmaster) (td : Nat) : LSSret × LSSmaster :=
  if m.CANrxNew then
    let cs := m.CANrxData.b0
    let m1 := { m with CANrxNew := false }
    if cs = 0x44 then (.OK, m1)
    else CO_LSSmaster_check_timeout m1 td
  else CO_LSSmaster_check_timeout m td

/-- The common tail of most driving calls: on a finished request
(ret not INVALID_STATE and not WAIT_SLAVE) reset command to WAITING. -/
def lssFinishCommon (s : LSSstep) : LSSstep :=
  if s.ret ≠ .INVALID_STATE ∧ s.ret ≠ .WAIT_SLAVE then
    { s with m := { s.m with command := 0 } }
  else s

/-- The extra tail of CO_LSSmaster_swStateSelect: on ret < OK reset state and command. -/
def lssFailReset (s : LSSstep) : LSSstep :=
  if s.ret.toInt < 0 then { s with m := { s.m with state := 0, command := 0 } } else s

/-- CO_LSSmaster_swStateSelect (the NULL-handle check is not modelled: it returns
before touching any state). -/
def CO_LSSmaster_swStateSelect (m : LSSmaster) (td : Nat) (lssAddress : Option LSSaddress) :
    LSSstep :=
  let step :=
    if m.state = 0 ∧ m.command = 0 then
      CO_LSSmaster_switchStateSelectInitiate m lssAddress
    else if m.command = 1 then
      let r := CO_LSSmaster_switchStateSelectWait m td
      { ret := r.1, m := r.2, tx := [] }
    else
      { ret := .INVALID_STATE, m := m, tx := [] }
  lssFailReset (lssFinishCommon step)

/-- CO_LSSmaster_swStateDeselect: unconditionally reset state, command and timer,
clear the rx flag and send one SWITCH_GLOBAL/WAITING frame. -/
def CO_LSSmaster_swStateDeselect (m : LSSmaster) : LSSstep :=
  let f : Frame := ⟨0x04, 0, 0, 0, 0, 0, 0, 0⟩
  { ret := .OK,
    m := { m with state := 0, command := 0, timeoutTimer := 0, CANrxNew := false, txData := f },
    tx := [f] }

/-- The finished-command reset on a (return, state) pair, as it appears inside
CO_LSSmaster_configureCheckWait. -/
def lssFinishPair (r : LSSret × LSSmaster) : LSSret × LSSmaster :=
  if r.1 ≠ .INVALID_STATE ∧ r.1 ≠ .WAIT_SLAVE then (r.1, { r.2 with command := 0 })
  else r

/-- CO_LSSmaster_configureCheckWait: wait for a configure confirmation with command
specifier csWait; byte 1 of the confirmation selects OK / OK_MANUFACTURER /
OK_ILLEGAL_ARGUMENT; includes its own finished-command reset. -/
def CO_LSSmaster_configureCheckWait (m : LSSmaster) (td : Nat) (csWait : Nat) :
    LSSret × LSSmaster :=
  lssFinishPair
    (if m.CANrxNew then
      let cs := m.CANrxData.b0
      let errorCode := m.CANrxData.b1
      let m1 := { m with CANrxNew := false }
      if cs = csWait then
        if errorCode = 0 then (LSSret.OK, m1)
        else if errorCode = 0xFF then (LSSret.OK_MANUFACTURER, m1)
        else (LSSret.OK_ILLEGAL_ARGUMENT, m1)
      else CO_LSSmaster_check_timeout m1 td
    else CO_LSSmaster_check_timeout m td)

/-- Modelled from the spec: the CO_LSS.h bit-timing table (header not in the sources;
spec section 4.2 lists the valid rates and scenario 2 fixes 500 kbit/s to index 2;
indices follow the CiA DS-305 table, where index 5 is the 100 kbit/s entry that this
implementation does not accept). -/
def CO_LSS_bitTimingIndex (bit : Nat) : Option Nat :=
  if bit = 1000 then some 0
  else if bit = 800 then some 1
  else if bit = 500 then some 2
  else if bit = 250 then some 3
  else if bit = 125 then some 4
  else if bit = 50 then some 6
  else if bit = 20 then some 7
  else if bit = 10 then some 8
  else if bit = 0 then some 9
  else none

/-- CO_LSSmaster_configureBitTiming. -/
def CO_LSSmaster_configureBitTiming (m : LSSmaster) (td : Nat) (bit : Nat) : LSSstep :=
  match CO_LSS_bitTimingIndex bit with
  | none => { ret := .ILLEGAL_ARGUMENT, m := m, tx := [] }
  | some bitTiming =>
    let step :=
      if m.state = 1 ∧ m.command = 0 then
        let f : Frame := { m.txData with b0 := 0x13, b1 := 0, b2 := bitTiming, b3 := 0,
                                         b4 := 0, b5 := 0, b6 := 0, b7 := 0 }
        { ret := LSSret.WAIT_SLAVE,
          m := { m with command := 2, timeoutTimer := 0, CANrxNew := false, txData := f },
          tx := [f] }
      else if m.command = 2 then
        let r := CO_LSSmaster_configureCheckWait m td 0x13
        { ret := r.1, m := r.2, tx := [] }
      else
        { ret := LSSret.INVALID_STATE, m := m, tx := [] }
    lssFinishCommon step

/-- Modelled from the spec: CO_LSS_NODE_ID_VALID of CO_LSS.h (header not in the
sources; spec section 4.2: valid node IDs are 1..127 and 0xFF). -/
def CO_LSS_nodeIdValid (nodeId : Nat) : Bool :=
  (1 ≤ nodeId && nodeId ≤ 0x7F) || nodeId = 0xFF

/-- CO_LSSmaster_configureNodeId. -/
def CO_LSSmaster_configureNodeId (m : LSSmaster) (td : Nat) (nodeId : Nat) : LSSstep :=
  if ¬ CO_LSS_nodeIdValid nodeId then { ret := .ILLEGAL_ARGUMENT, m := m, tx := [] }
  else
    let step :=
      if (m.state = 1 ∨ (m.state = 2 ∧ nodeId = 0xFF)) ∧ m.command = 0 then
        let f : Frame := { m.txData with b0 := 0x11, b1 := nodeId, b2 := 0, b3 := 0,
                                         b4 := 0, b5 := 0, b6 := 0, b7 := 0 }
        { ret := LSSret.WAIT_SLAVE,
          m := { m with command := 3, timeoutTimer := 0, CANrxNew := false, txData := f },
          tx := [f] }
      else if m.command = 3 then
        let r := CO_LSSmaster_configureCheckWait m td 0x11
        { ret := r.1, m := r.2, tx := [] }
      else
        { ret := LSSret.INVALID_STATE, m := m, tx := [] }
    lssFinishCommon step

/-- CO_LSSmaster_configureStore. -/
def CO_LSSmaster_configureStore (m : LSSmaster) (td : Nat) : LSSstep :=
  let step :=
    if m.state = 1 ∧ m.command = 0 then
      let f : Frame := { m.txData with b0 := 0x17, b1 := 0, b2 := 0, b3 := 0,
                                       b4 := 0, b5 := 0, b6 := 0, b7 := 0 }
      { ret := LSSret.WAIT_SLAVE,
        m := { m with command := 4, timeoutTimer := 0, CANrxNew := false, txData := f },
        tx := [f] }
    else if m.command = 4 then
      let r := CO_LSSmaster_configureCheckWait m td 0x17
      { ret := r.1, m := r.2, tx := [] }
    else
      { ret := LSSret.INVALID_STATE, m := m, tx := [] }
  lssFinishCommon step

/-- Helper of the inquire services: clear the rx flag and send one frame holding only
the requested inquire command specifier. -/
def CO_LSSmaster_inquireInitiate (m : LSSmaster) (cs : Nat) : LSSstep :=
  let f : Frame := { m.txData with b0 := cs, b1 := 0, b2 := 0, b3 := 0, b4 := 0,
                                   b5 := 0, b6 := 0, b7 := 0 }
  { ret := .WAIT_SLAVE, m := { m with CANrxNew := false, txData := f }, tx := [f] }

/-- Helper of the inquire services: wait for the echoing confirmation.  The C code
stores the 32-bit little-endian value from bytes 1..4 into *value whenever a frame is
pending, even if the command specifier does not match; the written value is returned
as the third component (none when no frame was pending). -/
def CO_LSSmaster_inquireCheckWait (m : LSSmaster) (td : Nat) (csWait : Nat) :
    LSSret × LSSmaster × Option Nat :=
  if m.CANrxNew then
    let cs := m.CANrxData.b0
    let v := frameValue32 m.CANrxData
    let m1 := { m with CANrxNew := false }
    if cs = csWait then (.OK, m1, some v)
    else
      let r := CO_LSSmaster_check_timeout m1 td
      (r.1, r.2, some v)
  else
    let r := CO_LSSmaster_check_timeout m td
    (r.1, r.2, none)

/-- CO_LSSmaster_Inquire: inquire one 32-bit value chosen by lssInquireCs.  Returns
the step and the value written through *value (none when it was not written). -/
def CO_LSSmaster_Inquire (m : LSSmaster) (td : Nat) (lssInquireCs : Nat) :
    LSSstep × Option Nat :=
  let sv :=
    if (m.state = 1 ∨ m.state = 2) ∧ m.command = 0 then
      let m1 := { m with command := 9, timeoutTimer := 0 }
      (CO_LSSmaster_inquireInitiate m1 lssInquireCs, (none : Option Nat))
    else if m.command = 9 then
      let r := CO_LSSmaster_inquireCheckWait m td lssInquireCs
      ({ ret := r.1, m := r.2.1, tx := [] }, r.2.2)
    else
      ({ ret := .INVALID_STATE, m := m, tx := [] }, none)
  if sv.1.ret ≠ .WAIT_SLAVE then
    ({ sv.1 with m := { sv.1.m with command := 0 } }, sv.2)
  else sv

/-- Phase 1 of CO_LSSmaster_InquireLssAddress: check for a reply of the request in
flight.  Returns (ret, new state, updated address, follow-up request marker). -/
def inquireAddrPhase1 (m : LSSmaster) (td : Nat) (addr : LSSaddress) :
    LSSret × LSSmaster × LSSaddress × Nat :=
  if m.command = 5 then
    let r := CO_LSSmaster_inquireCheckWait m td 0x5A
    let a1 := match r.2.2 with
              | some v => { addr with vendorID := v }
              | none => addr
    if r.1 = .OK then (.WAIT_SLAVE, r.2.1, a1, 6) else (r.1, r.2.1, a1, 0)
  else if m.command = 6 then
    let r := CO_LSSmaster_inquireCheckWait m td 0x5B
    let a1 := match r.2.2 with
              | some v => { addr with productCode := v }
              | none => addr
    if r.1 = .OK then (.WAIT_SLAVE, r.2.1, a1, 7) else (r.1, r.2.1, a1, 0)
  else if m.command = 7 then
    let r := CO_LSSmaster_inquireCheckWait m td 0x5C
    let a1 := match r.2.2 with
              | some v => { addr with revisionNumber := v }
              | none => addr
    if r.1 = .OK then (.WAIT_SLAVE, r.2.1, a1, 8) else (r.1, r.2.1, a1, 0)
  else if m.command = 8 then
    let r := CO_LSSmaster_inquireCheckWait m td 0x5D
    let a1 := match r.2.2 with
              | some v => { addr with serialNumber := v }
              | none => addr
    (r.1, r.2.1, a1, 0)
  else (.INVALID_STATE, m, addr, 0)

/-- Phase 2 of CO_LSSmaster_InquireLssAddress: start the first or the follow-up
request, given the phase-1 state and the follow-up marker. -/
def inquireAddrPhase2 (r0 : LSSret) (m0 : LSSmaster) (next : Nat) : LSSstep :=
  if m0.state = 1 ∨ m0.state = 2 then
    if m0.command = 0 then
      CO_LSSmaster_inquireInitiate { m0 with command := 5, timeoutTimer := 0 } 0x5A
    else if next = 6 then
      CO_LSSmaster_inquireInitiate { m0 with command := 6, timeoutTimer := 0 } 0x5B
    else if next = 7 then
      CO_LSSmaster_inquireInitiate { m0 with command := 7, timeoutTimer := 0 } 0x5C
    else if next = 8 then
      CO_LSSmaster_inquireInitiate { m0 with command := 8, timeoutTimer := 0 } 0x5D
    else { ret := r0, m := m0, tx := [] }
  else { ret := r0, m := m0, tx := [] }

/-- CO_LSSmaster_InquireLssAddress: chained inquiry of the four identity fields.
Returns the step and the (partially) updated LSS address record. -/
def CO_LSSmaster_InquireLssAddress (m : LSSmaster) (td : Nat) (addr : LSSaddress) :
    LSSstep × LSSaddress :=
  let p := inquireAddrPhase1 m td addr
  (lssFinishCommon (inquireAddrPhase2 p.1 p.2.1 p.2.2.2), p.2.2.1)

/-!
Fastscan (CO_LSSmaster_IdentifyFastscan and its helpers).
-/

/-- The per-field scan request (CO_LSSmaster_scantype_t; values SCAN = 0, MATCH = 1,
SKIP = 2 in CO_LSSmaster.h, which is not in the sources). -/
inductive FsMode where
  | scan
  | matchValue
  | skip
deriving DecidableEq, Repr

/-- The four per-field scan modes (fastscan->scan[4]). -/
structure FsScanModes where
  s0 : FsMode
  s1 : FsMode
  s2 : FsMode
  s3 : FsMode
deriving DecidableEq, Repr

/-- Array access fastscan->scan[i] (reachable indices are 0..3). -/
def FsScanModes.get (s : FsScanModes) (i : Nat) : FsMode :=
  match i with
  | 0 => s.s0
  | 1 => s.s1
  | 2 => s.s2
  | 3 => s.s3
  | _ => s.s3

/-- Four 32-bit values indexed 0..3 (the addr[4] view of CO_LSS_address_t). -/
structure Addr4 where
  a0 : Nat
  a1 : Nat
  a2 : Nat
  a3 : Nat
deriving DecidableEq, Repr

/-- Array access addr[i] (reachable indices are 0..3). -/
def Addr4.get (a : Addr4) (i : Nat) : Nat :=
  match i with
  | 0 => a.a0
  | 1 => a.a1
  | 2 => a.a2
  | 3 => a.a3
  | _ => a.a3

/-- Array update addr[i] := v (reachable indices are 0..3). -/
def Addr4.set (a : Addr4) (i : Nat) (v : Nat) : Addr4 :=
  match i with
  | 0 => { a with a0 := v }
  | 1 => { a with a1 := v }
  | 2 => { a with a2 := v }
  | 3 => { a with a3 := v }
  | _ => a

/-- CO_LSSmaster_fastscan_t: per-field scan modes, pre-known match values, result. -/
structure CO_LSSmaster_fastscan where
  scanModes : FsScanModes
  matchAddr : Addr4
  found : Addr4
deriving DecidableEq, Repr

/-- CO_LSSmaster_FsSendMsg: reset the timer, clear the rx flag, fill the transmit
buffer with the IDENT_FASTSCAN frame and send it. -/
def CO_LSSmaster_FsSendMsg (m : LSSmaster) (idNumber bitCheck lssSub lssNext : Nat) :
    LSSmaster × Frame :=
  let f0 := setUint32LE { m.txData with b0 := 0x51 } idNumber
  let f := { f0 with b5 := bitCheck, b6 := lssSub, b7 := lssNext }
  ({ m with timeoutTimer := 0, CANrxNew := false, txData := f }, f)

/-- CO_LSSmaster_FsCheckWait: after the timeout window, SCAN_FINISHED when an
IDENT_SLAVE frame arrived (at least one node is waiting), else SCAN_NOACK. -/
def CO_LSSmaster_FsCheckWait (m : LSSmaster) (td : Nat) : LSSret × LSSmaster :=
  let r := CO_LSSmaster_check_timeout m td
  if r.1 = .TIMEOUT then
    if r.2.CANrxNew then
      let cs := r.2.CANrxData.b0
      let m2 := { r.2 with CANrxNew := false }
      if cs = 0x4F then (.SCAN_FINISHED, m2) else (.SCAN_NOACK, m2)
    else (.SCAN_NOACK, r.2)
  else r

/-- CO_LSSmaster_FsScanInitiate: start scanning one 32-bit field at bit 31
(MATCH fields skip scanning, SKIP is a protocol error). -/
def CO_LSSmaster_FsScanInitiate (m : LSSmaster) (scanMode : FsMode) (lssSub : Nat) : LSSstep :=
  let m1 := { m with fsLssSub := lssSub, fsIdNumber := 0 }
  match scanMode with
  | .matchValue => { ret := .SCAN_FINISHED, m := m1, tx := [] }
  | .skip => { ret := .SCAN_FAILED, m := m1, tx := [] }
  | .scan =>
    let m2 := { m1 with fsBitChecked := 31 }
    let sf := CO_LSSmaster_FsSendMsg m2 m2.fsIdNumber m2.fsBitChecked m2.fsLssSub m2.fsLssSub
    { ret := .WAIT_SLAVE, m := sf.1, tx := [sf.2] }

/-- The tail of one successful fastscan SCAN step: at bit 0 the field is complete,
otherwise decrement bitChecked and send the next probe. -/
def fsScanAdvance (m : LSSmaster) : LSSstep :=
  if m.fsBitChecked = 0 then { ret := .SCAN_FINISHED, m := m, tx := [] }
  else
    let m1 := { m with fsBitChecked := m.fsBitChecked - 1 }
    let sf := CO_LSSmaster_FsSendMsg m1 m1.fsIdNumber m1.fsBitChecked m1.fsLssSub m1.fsLssSub
    { ret := .WAIT_SLAVE, m := sf.1, tx := [sf.2] }

/-- CO_LSSmaster_FsScanWait: evaluate one bit after the timeout window.  No response
means the assumed 0 was wrong, so the checked bit of the 32-bit id is set; an
IDENT_SLAVE response leaves it 0; any other response is SCAN_FAILED. -/
def CO_LSSmaster_FsScanWait (m : LSSmaster) (td : Nat) (scanMode : FsMode) : LSSstep :=
  match scanMode with
  | .matchValue => { ret := .SCAN_FINISHED, m := m, tx := [] }
  | .skip => { ret := .SCAN_FAILED, m := m, tx := [] }
  | .scan =>
    let r := CO_LSSmaster_check_timeout m td
    if r.1 = .TIMEOUT then
      if r.2.CANrxNew then
        let cs := r.2.CANrxData.b0
        let m2 := { r.2 with CANrxNew := false }
        if cs ≠ 0x4F then { ret := .SCAN_FAILED, m := m2, tx := [] }
        else fsScanAdvance m2
      else
        let m2 := { r.2 with
                    fsIdNumber := (r.2.fsIdNumber ||| (1 <<< r.2.fsBitChecked)) % 4294967296 }
        fsScanAdvance m2
    else { ret := r.1, m := r.2, tx := [] }

/-- CO_LSSmaster_FsVerifyInitiate: send the verification frame with bitChecked = 0;
MATCH fields seed the id from the user-provided value. -/
def CO_LSSmaster_FsVerifyInitiate (m : LSSmaster) (scanMode : FsMode)
    (idNumberCheck lssNext : Nat) : LSSstep :=
  match scanMode with
  | .skip => { ret := .SCAN_FAILED, m := m, tx := [] }
  | .scan =>
    let m2 := { m with fsBitChecked := 0 }
    let sf := CO_LSSmaster_FsSendMsg m2 m2.fsIdNumber m2.fsBitChecked m2.fsLssSub lssNext
    { ret := .WAIT_SLAVE, m := sf.1, tx := [sf.2] }
  | .matchValue =>
    let m2 := { m with fsIdNumber := idNumberCheck, fsBitChecked := 0 }
    let sf := CO_LSSmaster_FsSendMsg m2 m2.fsIdNumber m2.fsBitChecked m2.fsLssSub lssNext
    { ret := .WAIT_SLAVE, m := sf.1, tx := [sf.2] }

/-- CO_LSSmaster_FsVerifyWait: after the timeout window an IDENT_SLAVE ack confirms
the id (written through *idNumberRet, returned as the third component), any other
response is SCAN_FAILED, no response is SCAN_NOACK with *idNumberRet = 0. -/
def CO_LSSmaster_FsVerifyWait (m : LSSmaster) (td : Nat) (scanMode : FsMode) :
    LSSret × LSSmaster × Option Nat :=
  if scanMode = .skip then (.SCAN_FAILED, m, none)
  else
    let r := CO_LSSmaster_check_timeout m td
    if r.1 = .TIMEOUT then
      if r.2.CANrxNew then
        let cs := r.2.CANrxData.b0
        let m2 := { r.2 with CANrxNew := false }
        if cs = 0x4F then (.SCAN_FINISHED, m2, some m2.fsIdNumber)
        else (.SCAN_FAILED, m2, some 0)
      else (.SCAN_NOACK, r.2, some 0)
    else (r.1, r.2, none)

/-- The search loop of CO_LSSmaster_FsSearchNext: first index in i..3 whose scan mode
is not SKIP, else 0 (VENDOR, meaning switch the node to configuration state). -/
def fsSearchFrom (fastscan : CO_LSSmaster_fastscan) (i : Nat) : Nat :=
  if i ≤ 3 then
    if fastscan.scanModes.get i ≠ FsMode.skip then i else fsSearchFrom fastscan (i + 1)
  else 0
termination_by 4 - i

/-- CO_LSSmaster_FsSearchNext: next field to scan after the current one. -/
def CO_LSSmaster_FsSearchNext (m : LSSmaster) (fastscan : CO_LSSmaster_fastscan) : Nat :=
  fsSearchFrom fastscan (m.fsLssSub + 1)

/-- Number of SKIP entries among the four scan modes (the C loop counts them and
rejects more than two). -/
def fsSkipCount (f : CO_LSSmaster_fastscan) : Nat :=
  (if f.scanModes.s0 = .skip then 1 else 0) + (if f.scanModes.s1 = .skip then 1 else 0)
  + (if f.scanModes.s2 = .skip then 1 else 0) + (if f.scanModes.s3 = .skip then 1 else 0)

/-- The fastscan state-machine evaluation inside CO_LSSmaster_IdentifyFastscan
(the switch over fsState: CHECK, SCAN, VERIFY). -/
def fsEvaluate (m : LSSmaster) (td : Nat) (fastscan : CO_LSSmaster_fastscan) :
    LSSstep × CO_LSSmaster_fastscan :=
  if m.fsState = 0 then
    -- CHECK
    let r := CO_LSSmaster_FsCheckWait m td
    if r.1 = .SCAN_FINISHED then
      let fs1 := { fastscan with found := ⟨0, 0, 0, 0⟩ }
      let st := CO_LSSmaster_FsScanInitiate r.2 (fs1.scanModes.get 0) 0
      (({ ret := .WAIT_SLAVE, m := { st.m with fsState := 1 }, tx := st.tx } : LSSstep), fs1)
    else (({ ret := r.1, m := r.2, tx := [] } : LSSstep), fastscan)
  else if m.fsState = 1 then
    -- SCAN
    let st := CO_LSSmaster_FsScanWait m td (fastscan.scanModes.get m.fsLssSub)
    if st.ret = .SCAN_FINISHED then
      let next := CO_LSSmaster_FsSearchNext st.m fastscan
      let st2 := CO_LSSmaster_FsVerifyInitiate st.m (fastscan.scanModes.get st.m.fsLssSub)
                   (fastscan.matchAddr.get st.m.fsLssSub) next
      (({ st2 with m := { st2.m with fsState := 2 } } : LSSstep), fastscan)
    else (st, fastscan)
  else if m.fsState = 2 then
    -- VERIFY
    let r := CO_LSSmaster_FsVerifyWait m td (fastscan.scanModes.get m.fsLssSub)
    let fs1 := match r.2.2 with
               | some v => { fastscan with found := fastscan.found.set r.2.1.fsLssSub v }
               | none => fastscan
    if r.1 = .SCAN_FINISHED then
      let next := CO_LSSmaster_FsSearchNext r.2.1 fastscan
      if next = 0 then
        (({ ret := .SCAN_FINISHED, m := { r.2.1 with state := 1 }, tx := [] } : LSSstep), fs1)
      else
        let st := CO_LSSmaster_FsScanInitiate r.2.1 (fastscan.scanModes.get next) next
        let r2 := if st.ret = .SCAN_FINISHED then LSSret.WAIT_SLAVE else st.ret
        (({ ret := r2, m := { st.m with fsState := 1 }, tx := st.tx } : LSSstep), fs1)
    else (({ ret := r.1, m := r.2.1, tx := [] } : LSSstep), fs1)
  else (({ ret := .INVALID_STATE, m := m, tx := [] } : LSSstep), fastscan)

/-- The finished-command reset at the end of CO_LSSmaster_IdentifyFastscan. -/
def fsFinish (sfs : LSSstep × CO_LSSmaster_fastscan) : LSSstep × CO_LSSmaster_fastscan :=
  if sfs.1.ret ≠ .WAIT_SLAVE then
    ({ sfs.1 with m := { sfs.1.m with command := 0 } }, sfs.2)
  else sfs

/-- CO_LSSmaster_IdentifyFastscan: the outer fastscan state machine.  Returns the
step and the updated fastscan record (found fields). -/
def CO_LSSmaster_IdentifyFastscan (m : LSSmaster) (td : Nat)
    (fastscan : CO_LSSmaster_fastscan) : LSSstep × CO_LSSmaster_fastscan :=
  if fastscan.scanModes.s0 = .skip then
    ({ ret := .ILLEGAL_ARGUMENT, m := m, tx := [] }, fastscan)
  else if 2 < fsSkipCount fastscan then
    ({ ret := .ILLEGAL_ARGUMENT, m := m, tx := [] }, fastscan)
  else if m.state ≠ 0 ∨ (m.command ≠ 0 ∧ m.command ≠ 10) then
    ({ ret := .INVALID_STATE, m := m, tx := [] }, fastscan)
  else if m.command = 0 then
    -- start fastscan: probe whether any non-configured node is waiting
    let m1 := { m with command := 10, fsState := 0 }
    let sf := CO_LSSmaster_FsSendMsg m1 0 0x80 0 0
    ({ ret := .WAIT_SLAVE, m := sf.1, tx := [sf.2] }, fastscan)
  else
    fsFinish (fsEvaluate m td fastscan)

/-!
Storage engine (src/storage/CO_storageEeprom.c), byte-addressed path (C2000_PORT = 0).
The EEPROM adapter (storage/CO_eeprom.c) is not part of the sources; reads are
modelled through a byte memory function, the bump allocator of CO_eeprom_getAddr is
modelled from the spec (section 6), and the write/read outcomes of the restore
handler are oracle parameters.
-/

/-- Modelled from the spec: crc16_ccitt_single of 301/crc16-ccitt.c (not in the
sources; glossary: polynomial 0x1021, initial value 0, no reflection, no final XOR).
Feed one byte, MSB first. -/
def crc16_ccitt_single (crc : Nat) (chr : Nat) : Nat :=
  let c := (crc ^^^ ((chr % 256) <<< 8)) % 65536
  (List.range 8).foldl
    (fun acc _ => if 32768 ≤ acc then ((acc <<< 1) ^^^ 0x1021) % 65536 else (acc <<< 1) % 65536)
    c

/-- Modelled from the spec: crc16_ccitt over a block of bytes with a given initial
value (the storage engine always passes 0). -/
def crc16_ccitt (block : List Nat) (crc : Nat) : Nat :=
  block.foldl crc16_ccitt_single crc

/-- Modelled from the spec: the CO_storage_auto attribute bit of CO_storage.h
(header not in the sources; only the presence of the bit matters here). -/
def CO_storage_auto : Nat := 2

/-- One registered storage entry (CO_storage_entry_t).  ram models the bytes at
addrRAM; len, attr and subIndexOD are caller-owned; eepromAddr,
eepromAddrSignature, crc and offset are engine-owned. -/
structure CO_storage_entry where
  ram : List Nat
  len : Nat
  attr : Nat
  subIndexOD : Nat
  eepromAddr : Nat
  eepromAddrSignature : Nat
  crc : Nat
  offset : Nat
deriving DecidableEq, Repr

/-- Modelled from the spec: the OD abort kinds the storage handlers return
(ODR_OK and the hardware-error kind ODR_HW of the OD interface, not in the sources). -/
inductive ODR where
  | ok
  | hw
deriving DecidableEq, Repr

/-- Modelled from the spec: the CO_ReturnError_t codes the storage engine uses
(header not in the sources). -/
inductive CO_ReturnError where
  | no
  | illegalArgument
  | outOfMemory
  | dataCorrupt
deriving DecidableEq, Repr

/-- One call the storage handlers make into the EEPROM adapter. -/
inductive EeOp where
  | writeBlock (data : List Nat) (addr : Nat)
  | readBlock (addr : Nat) (len : Nat)
deriving DecidableEq, Repr

/-- CO_eeprom_readBlock on a byte memory: len bytes starting at addr. -/
def readBlock (mem : Nat → Nat) (addr len : Nat) : List Nat :=
  (List.range len).map fun j => mem (addr + j) % 256

/-- A 32-bit little-endian word of the byte memory (how the uint32 signatures array
is read back on a little-endian host, matching how storeEeprom wrote it). -/
def leWord32 (mem : Nat → Nat) (addr : Nat) : Nat :=
  mem addr % 256 + (mem (addr + 1) % 256) * 256 + (mem (addr + 2) % 256) * 65536
  + (mem (addr + 3) % 256) * 16777216

/-- restoreEeprom: write the empty signature 0xFFFFFFFF to the signature slot, read
it back and fail with the hardware-error kind when the read-back differs or the
write reported failure.  writeOk and signatureRead are the adapter outcomes; the
returned trace lists the adapter calls made. -/
def restoreEeprom (entry : CO_storage_entry) (writeOk : Bool) (signatureRead : Nat) :
    ODR × CO_storage_entry × List EeOp :=
  let ops := [EeOp.writeBlock [255, 255, 255, 255] entry.eepromAddrSignature,
              EeOp.readBlock entry.eepromAddrSignature 4]
  if signatureRead ≠ 4294967295 ∨ writeOk = false then (ODR.hw, entry, ops)
  else (ODR.ok, entry, ops)

/-- The 32-bit signature stored for entry i: little-endian word at offset 4*i of the
signatures region. -/
def entrySignature (mem : Nat → Nat) (sigBase i : Nat) : Nat :=
  leWord32 mem (sigBase + 4 * i)

/-- The dataCorrupt flag computed by CO_storageEeprom_init for one entry: the low
half of the stored signature must equal the entry length, and (except for AUTO
entries) the CRC recomputed over the freshly loaded bytes must equal the high half. -/
def entryDataCorrupt (mem : Nat → Nat) (sigBase i dataAddr : Nat)
    (e : CO_storage_entry) : Bool :=
  let signature := entrySignature mem sigBase i
  if signature % 65536 ≠ e.len % 65536 then true
  else if e.attr &&& CO_storage_auto ≠ 0 then false
  else decide (crc16_ccitt (readBlock mem dataAddr e.len) 0 ≠ signature >>> 16)

/-- The per-entry loop of CO_storageEeprom_init.  Arguments: byte memory, allocator
capacity, signatures base address, current index, current bump-allocator address,
sticky overflow flag, accumulated storageInitError, accumulated return code, and the
remaining entries.  Returns the final return code, storageInitError and the updated
entry list. -/
def storageInitLoop (mem : Nat → Nat) (cap sigBase : Nat) :
    Nat → Nat → Bool → Nat → CO_ReturnError → List CO_storage_entry →
    CO_ReturnError × Nat × List CO_storage_entry
  | _, _, _, err, ret, [] => (ret, err, [])
  | i, alloc, ovf, err, ret, e :: rest =>
    if e.len = 0 ∨ e.subIndexOD < 2 then (CO_ReturnError.illegalArgument, i, e :: rest)
    else
      let e1 := { e with eepromAddrSignature := sigBase + 4 * i, eepromAddr := alloc,
                         offset := 0 }
      let ovf1 := ovf || decide (cap < alloc + e.len)
      if ovf1 then (CO_ReturnError.outOfMemory, i, e1 :: rest)
      else
        let signature := entrySignature mem sigBase i
        let e2 := { e1 with crc := signature >>> 16 }
        let corrupt := entryDataCorrupt mem sigBase i e1.eepromAddr e
        let e3 := if signature % 65536 = e.len % 65536 then
                    { e2 with ram := readBlock mem e1.eepromAddr e.len }
                  else e2
        let err1 := if corrupt then err ||| (1 <<< min e.subIndexOD 31) else err
        let ret1 := if corrupt then CO_ReturnError.dataCorrupt else ret
        let r := storageInitLoop mem cap sigBase (i + 1) (alloc + e.len) ovf1 err1 ret1 rest
        (r.1, r.2.1, e3 :: r.2.2)

/-- CO_storageEeprom_init (byte path).  hwInitOk is the CO_eeprom_init outcome;
errIn is the initial content of the caller-owned *storageInitError word (the C code
leaves it unwritten when entriesCount is 0); CO_storage_init is assumed to succeed
(it only registers the OD extensions).  The bump allocator starts at address 0 with
the signatures region (4 bytes per entry) followed by the data regions.  Returns
(return code, storageInitError, updated entries). -/
def CO_storageEeprom_init (mem : Nat → Nat) (cap : Nat) (hwInitOk : Bool) (errIn : Nat)
    (entries : List CO_storage_entry) : CO_ReturnError × Nat × List CO_storage_entry :=
  if entries.length = 0 then (CO_ReturnError.illegalArgument, errIn, entries)
  else if ¬ hwInitOk then (CO_ReturnError.dataCorrupt, 4294967295, entries)
  else
    let sigBase := 0
    let alloc0 := 4 * entries.length
    let ovf0 := decide (cap < alloc0)
    storageInitLoop mem cap sigBase 0 alloc0 ovf0 0 CO_ReturnError.no entries

/-!
Example states used by concrete witnesses and counterexamples.
-/

/-- A freshly initialised master (CO_LSSmaster_init with a 1 ms timeout and a zeroed
transmit buffer). -/
def mFresh : LSSmaster :=
  { state := 0, command := 0, timeoutTimer := 0, timeout_us := 1000, CANrxNew := false,
    CANrxData := zeroFrame, fsState := 0, fsLssSub := 0, fsBitChecked := 0, fsIdNumber := 0,
    txData := zeroFrame }

/-- The LSS address of spec scenario 1. -/
def addrEx : LSSaddress := ⟨0x11223344, 0x55667788, 0x99AABBCC, 0xDDEEFF00⟩

/-- A master whose transmit buffer still holds 0x80 in byte 5, as left behind by the
fastscan CHECK probe (CO_LSSmaster_FsSendMsg writes CO_LSS_FASTSCAN_CONFIRM there). -/
def mStaleB5 : LSSmaster := { mFresh with txData := { zeroFrame with b5 := 0x80 } }

/-- A master with the store-configuration request in flight. -/
def mStoreWait : LSSmaster := { mFresh with state := 1, command := 4 }

/-- A master with the selective switch in flight (initiation already done). -/
def mSwWait : LSSmaster := { mFresh with state := 1, command := 1 }

/-- A master with the node-ID configuration request in flight. -/
def mNodeIdWait : LSSmaster := { mFresh with state := 1, command := 3 }

/-- Bit-timing configuration awaiting confirmation, manufacturer-specific reject
(0xFF) pending in the receive slot. -/
def mBitWaitEx : LSSmaster :=
  { mFresh with state := 1, command := 2, CANrxNew := true,
                CANrxData := { zeroFrame with b0 := 0x13, b1 := 0xFF } }

/-- Node-ID configuration awaiting confirmation, success (0) pending. -/
def mNodeWaitEx : LSSmaster :=
  { mFresh with state := 1, command := 3, CANrxNew := true,
                CANrxData := { zeroFrame with b0 := 0x11, b1 := 0 } }

/-- Store configuration awaiting confirmation, standard reject (5) pending. -/
def mStoreWaitEx : LSSmaster :=
  { mFresh with state := 1, command := 4, CANrxNew := true,
                CANrxData := { zeroFrame with b0 := 0x17, b1 := 5 } }

/-- A fastscan request scanning all four identity fields. -/
def fsAllScan : CO_LSSmaster_fastscan :=
  ⟨⟨.scan, .scan, .scan, .scan⟩, ⟨0, 0, 0, 0⟩, ⟨0, 0, 0, 0⟩⟩

/-- A fastscan CHECK phase in flight (probe sent, waiting for an ack). -/
def mFsCheck : LSSmaster := { mFresh with command := 10, fsState := 0 }

/-- A fastscan SCAN phase in flight at bit 31 of the vendor ID. -/
def mFsScan : LSSmaster :=
  { mFresh with command := 10, fsState := 1, fsLssSub := 0, fsBitChecked := 31, fsIdNumber := 0 }

/-- An EEPROM image for one 2-byte entry: the signature word at bytes 0..3 holds
length 2 and the CRC 0xC965 of the originally saved bytes [0xAB, 0xCD], but the data
byte at address 4 was corrupted from 0xAB to 0xAC. -/
def memC3 : Nat → Nat := fun a =>
  if a = 0 then 2
  else if a = 1 then 0
  else if a = 2 then 0x65
  else if a = 3 then 0xC9
  else if a = 4 then 0xAC
  else if a = 5 then 0xCD
  else 0

/-- A 2-byte storage entry registered at sub-index 2. -/
def entC3 : CO_storage_entry :=
  { ram := [0, 0], len := 2, attr := 0, subIndexOD := 2, eepromAddr := 0,
    eepromAddrSignature := 0, crc := 0, offset := 0 }

/-!
Helper lemmas about the shared service tails and the trivial state-preservation of
the helper functions.
-/

theorem lssFinishCommon_ret (s : LSSstep) : (lssFinishCommon s).ret = s.ret := by
  unfold lssFinishCommon; split <;> rfl

theorem lssFinishCommon_tx (s : LSSstep) : (lssFinishCommon s).tx = s.tx := by
  unfold lssFinishCommon; split <;> rfl

theorem lssFinishCommon_state (s : LSSstep) : (lssFinishCommon s).m.state = s.m.state := by
  unfold lssFinishCommon; split <;> rfl

theorem lssFinishCommon_command (s : LSSstep) :
    (lssFinishCommon s).m.command =
      if s.ret ≠ .INVALID_STATE ∧ s.ret ≠ .WAIT_SLAVE then 0 else s.m.command := by
  unfold lssFinishCommon; split <;> simp_all

theorem finReset_ret (s : LSSstep) : (lssFailReset (lssFinishCommon s)).ret = s.ret := by
  unfold lssFinishCommon lssFailReset; split <;> split <;> rfl

theorem finReset_tx (s : LSSstep) : (lssFailReset (lssFinishCommon s)).tx = s.tx := by
  unfold lssFinishCommon lssFailReset; split <;> split <;> rfl

theorem finReset_state (s : LSSstep) :
    (lssFailReset (lssFinishCommon s)).m.state =
      if s.ret.toInt < 0 then 0 else s.m.state := by
  obtain ⟨ret, m, tx⟩ := s
  cases ret <;> simp [lssFinishCommon, lssFailReset, LSSret.toInt]

theorem finReset_command (s : LSSstep) :
    (lssFailReset (lssFinishCommon s)).m.command =
      if s.ret = .WAIT_SLAVE then s.m.command else 0 := by
  obtain ⟨ret, m, tx⟩ := s
  cases ret <;> simp [lssFinishCommon, lssFailReset, LSSret.toInt]

theorem check_timeout_state (m : LSSmaster) (td : Nat) :
    (CO_LSSmaster_check_timeout m td).2.state = m.state := by
  simp only [CO_LSSmaster_check_timeout]; split <;> rfl

theorem check_timeout_command (m : LSSmaster) (td : Nat) :
    (CO_LSSmaster_check_timeout m td).2.command = m.command := by
  simp only [CO_LSSmaster_check_timeout]; split <;> rfl

theorem check_timeout_ret (m : LSSmaster) (td : Nat) :
    (CO_LSSmaster_check_timeout m td).1 = .TIMEOUT ∨
    (CO_LSSmaster_check_timeout m td).1 = .WAIT_SLAVE := by
  simp only [CO_LSSmaster_check_timeout]; split
  · exact Or.inl rfl
  · exact Or.inr rfl

theorem switchStateSelectWait_state (m : LSSmaster) (td : Nat) :
    (CO_LSSmaster_switchStateSelectWait m td).2.state = m.state := by
  simp only [CO_LSSmaster_switchStateSelectWait]
  split
  · split
    · rfl
    · exact check_timeout_state _ _
  · exact check_timeout_state _ _

theorem switchStateSelectWait_ret (m : LSSmaster) (td : Nat) :
    (CO_LSSmaster_switchStateSelectWait m td).1 = .OK ∨
    (CO_LSSmaster_switchStateSelectWait m td).1 = .TIMEOUT ∨
    (CO_LSSmaster_switchStateSelectWait m td).1 = .WAIT_SLAVE := by
  simp only [CO_LSSmaster_switchStateSelectWait]
  split
  · split
    · exact Or.inl rfl
    · exact Or.inr (check_timeout_ret _ _)
  · exact Or.inr (check_timeout_ret _ _)

theorem lssFinishPair_ret (r : LSSret × LSSmaster) : (lssFinishPair r).1 = r.1 := by
  simp only [lssFinishPair]; split <;> rfl

theorem lssFinishPair_state (r : LSSret × LSSmaster) :
    (lssFinishPair r).2.state = r.2.state := by
  simp only [lssFinishPair]; split <;> rfl

theorem lssFinishPair_command (r : LSSret × LSSmaster) :
    (lssFinishPair r).2.command =
      if r.1 ≠ .INVALID_STATE ∧ r.1 ≠ .WAIT_SLAVE then 0 else r.2.command := by
  simp only [lssFinishPair]; split <;> simp_all

theorem configureCheckWait_state (m : LSSmaster) (td cs : Nat) :
    (CO_LSSmaster_configureCheckWait m td cs).2.state = m.state := by
  simp only [CO_LSSmaster_configureCheckWait]
  rw [lssFinishPair_state]
  split
  · split
    · split
      · rfl
      · split <;> rfl
    · exact check_timeout_state _ _
  · exact check_timeout_state _ _

/-!
Claim theorems.
-/

/-- Claim C8: swStateDeselect is idempotent.  Both of two consecutive calls return
OK, the second call leaves exactly the state of the first (outer WAITING, command
WAITING, timer 0) and both transmit the same global frame with byte 0 =
SWITCH_GLOBAL, byte 1 = WAITING and bytes 2..7 zero. -/
theorem claim_C8 (m : LSSmaster) :
    (CO_LSSmaster_swStateDeselect m).ret = LSSret.OK ∧
    (CO_LSSmaster_swStateDeselect (CO_LSSmaster_swStateDeselect m).m).ret = LSSret.OK ∧
    (CO_LSSmaster_swStateDeselect (CO_LSSmaster_swStateDeselect m).m).m =
      (CO_LSSmaster_swStateDeselect m).m ∧
    (CO_LSSmaster_swStateDeselect (CO_LSSmaster_swStateDeselect m).m).tx =
      (CO_LSSmaster_swStateDeselect m).tx ∧
    (CO_LSSmaster_swStateDeselect m).m.state = 0 ∧
    (CO_LSSmaster_swStateDeselect m).m.command = 0 ∧
    (CO_LSSmaster_swStateDeselect m).m.timeoutTimer = 0 ∧
    (CO_LSSmaster_swStateDeselect m).tx = [⟨0x04, 0, 0, 0, 0, 0, 0, 0⟩] := by
  cases m
  exact ⟨rfl, rfl, rfl, rfl, rfl, rfl, rfl, rfl⟩

/-- Claim C10: a selective switch initiation (state WAITING, command WAITING,
address given) sets the outer state to CFG_SLECTIVE immediately while returning
WAIT_SLAVE, and afterwards, while the wait phase keeps returning WAIT_SLAVE (or
finishes with OK), the outer state is preserved; only an error return resets it to
WAITING. -/
theorem claim_C10 :
    (∀ (m : LSSmaster) (td : Nat) (a : LSSaddress),
      m.state = 0 → m.command = 0 →
      (CO_LSSmaster_swStateSelect m td (some a)).ret = LSSret.WAIT_SLAVE ∧
      (CO_LSSmaster_swStateSelect m td (some a)).m.state = 1 ∧
      (CO_LSSmaster_swStateSelect m td (some a)).m.command = 1) ∧
    (∀ (m : LSSmaster) (td : Nat) (a : Option LSSaddress),
      m.command = 1 →
      ((CO_LSSmaster_swStateSelect m td a).ret = LSSret.WAIT_SLAVE →
        (CO_LSSmaster_swStateSelect m td a).m.state = m.state) ∧
      ((CO_LSSmaster_swStateSelect m td a).ret = LSSret.OK →
        (CO_LSSmaster_swStateSelect m td a).m.state = m.state) ∧
      ((CO_LSSmaster_swStateSelect m td a).ret.toInt < 0 →
        (CO_LSSmaster_swStateSelect m td a).m.state = 0)) := by
  constructor
  · intro m td a hs hc
    unfold CO_LSSmaster_swStateSelect
    rw [if_pos ⟨hs, hc⟩]
    simp [CO_LSSmaster_switchStateSelectInitiate, lssFinishCommon, lssFailReset, LSSret.toInt]
  · intro m td a hc
    simp only [CO_LSSmaster_swStateSelect]
    rw [if_neg (by simp [hc]), if_pos hc]
    have hst := switchStateSelectWait_state m td
    refine ⟨?_, ?_, ?_⟩ <;> intro hr
    · have hr2 : (CO_LSSmaster_switchStateSelectWait m td).1 = LSSret.WAIT_SLAVE := by
        have := finReset_ret ⟨(CO_LSSmaster_switchStateSelectWait m td).1,
          (CO_LSSmaster_switchStateSelectWait m td).2, []⟩
        rw [this] at hr
        exact hr
      rw [finReset_state]
      simp only [hr2]
      simpa [LSSret.toInt] using hst
    · have hr2 : (CO_LSSmaster_switchStateSelectWait m td).1 = LSSret.OK := by
        have := finReset_ret ⟨(CO_LSSmaster_switchStateSelectWait m td).1,
          (CO_LSSmaster_switchStateSelectWait m td).2, []⟩
        rw [this] at hr
        exact hr
      rw [finReset_state]
      simp only [hr2]
      simpa [LSSret.toInt] using hst
    · rw [finReset_ret] at hr
      rw [finReset_state, if_pos hr]

/-- Claim C10 witness: on a fresh master the selective initiation returns WAIT_SLAVE
with the outer state already CFG_SLECTIVE, and a further WAIT_SLAVE tick in the wait
phase preserves the outer state. -/
theorem claim_C10_witness :
    (CO_LSSmaster_swStateSelect mFresh 0 (some addrEx)).ret = LSSret.WAIT_SLAVE ∧
    (CO_LSSmaster_swStateSelect mFresh 0 (some addrEx)).m.state = 1 ∧
    (CO_LSSmaster_swStateSelect mSwWait 5 (some addrEx)).ret = LSSret.WAIT_SLAVE ∧
    (CO_LSSmaster_swStateSelect mSwWait 5 (some addrEx)).m.state = mSwWait.state := by
  obtain ⟨h1, h2, _⟩ := claim_C10.1 mFresh 0 addrEx rfl rfl
  exact ⟨h1, h2, by decide, ((claim_C10.2 mSwWait 5 (some addrEx) (by decide)).1) (by decide)⟩

/-- Claim C5, counterexample to the claim as stated: with the fastscan CHECK probe
value 0x80 still in byte 5 of the transmit buffer, the selective switch initiation
sends all four frames with byte 5 = 0x80, not 0. -/
theorem claim_C5_counterexample :
    ((CO_LSSmaster_swStateSelect mStaleB5 0 (some addrEx)).tx.map Frame.b5) =
      [0x80, 0x80, 0x80, 0x80] ∧ (0x80 : Nat) ≠ 0 := by decide

/-- Claim C5 as amended: in state WAITING with command WAITING and a non-null
address, swStateSelect transmits exactly four frames with byte 0 = 0x40, 0x41, 0x42,
0x43 in that order, each carrying the corresponding identity field little-endian in
bytes 1..4; bytes 6..7 of every frame are zero, while byte 5 carries the previous
content of the transmit buffer (the memset in the C code only clears bytes 6..7), so
it is zero exactly when the buffer byte 5 already was. -/
theorem claim_C5 (m : LSSmaster) (td : Nat) (a : LSSaddress)
    (hs : m.state = 0) (hc : m.command = 0) :
    (CO_LSSmaster_swStateSelect m td (some a)).tx =
      [⟨0x40, a.vendorID % 256, (a.vendorID >>> 8) % 256, (a.vendorID >>> 16) % 256,
        (a.vendorID >>> 24) % 256, m.txData.b5, 0, 0⟩,
       ⟨0x41, a.productCode % 256, (a.productCode >>> 8) % 256, (a.productCode >>> 16) % 256,
        (a.productCode >>> 24) % 256, m.txData.b5, 0, 0⟩,
       ⟨0x42, a.revisionNumber % 256, (a.revisionNumber >>> 8) % 256,
        (a.revisionNumber >>> 16) % 256, (a.revisionNumber >>> 24) % 256, m.txData.b5, 0, 0⟩,
       ⟨0x43, a.serialNumber % 256, (a.serialNumber >>> 8) % 256, (a.serialNumber >>> 16) % 256,
        (a.serialNumber >>> 24) % 256, m.txData.b5, 0, 0⟩] := by
  unfold CO_LSSmaster_swStateSelect
  rw [if_pos ⟨hs, hc⟩, finReset_tx]
  rfl

/-- Claim C5 witness: the spec scenario-1 address on a fresh master (transmit buffer
zeroed) produces exactly the four frames of the spec, the first being
[0x40 44 33 22 11 00 00 00]. -/
theorem claim_C5_witness :
    mFresh.state = 0 ∧ mFresh.command = 0 ∧
    (CO_LSSmaster_swStateSelect mFresh 0 (some addrEx)).tx =
      [⟨0x40, 0x44, 0x33, 0x22, 0x11, 0, 0, 0⟩,
       ⟨0x41, 0x88, 0x77, 0x66, 0x55, 0, 0, 0⟩,
       ⟨0x42, 0xCC, 0xBB, 0xAA, 0x99, 0, 0, 0⟩,
       ⟨0x43, 0x00, 0xFF, 0xEE, 0xDD, 0, 0, 0⟩] := by
  refine ⟨rfl, rfl, ?_⟩
  rw [claim_C5 mFresh 0 addrEx rfl rfl]
  rfl

theorem configureCheckWait_decode (m : LSSmaster) (td cs : Nat)
    (hrx : m.CANrxNew = true) (hcs : m.CANrxData.b0 = cs) :
    (CO_LSSmaster_configureCheckWait m td cs).1 =
      (if m.CANrxData.b1 = 0 then LSSret.OK
       else if m.CANrxData.b1 = 0xFF then LSSret.OK_MANUFACTURER
       else LSSret.OK_ILLEGAL_ARGUMENT) := by
  simp only [CO_LSSmaster_configureCheckWait]
  rw [lssFinishPair_ret, if_pos hrx, if_pos hcs]
  split <;> first | rfl | (split <;> simp_all)

/-- Claim C6: for each configure service awaiting confirmation, when the expected
command specifier arrives, the result depends only on byte 1 of the confirmation:
0 gives OK, 0xFF gives OK_MANUFACTURER, anything else gives OK_ILLEGAL_ARGUMENT. -/
theorem claim_C6 :
    (∀ (m : LSSmaster) (td bit : Nat), CO_LSS_bitTimingIndex bit ≠ none →
      m.command = 2 → m.CANrxNew = true → m.CANrxData.b0 = 0x13 →
      (CO_LSSmaster_configureBitTiming m td bit).ret =
        (if m.CANrxData.b1 = 0 then LSSret.OK
         else if m.CANrxData.b1 = 0xFF then LSSret.OK_MANUFACTURER
         else LSSret.OK_ILLEGAL_ARGUMENT)) ∧
    (∀ (m : LSSmaster) (td nodeId : Nat), CO_LSS_nodeIdValid nodeId = true →
      m.command = 3 → m.CANrxNew = true → m.CANrxData.b0 = 0x11 →
      (CO_LSSmaster_configureNodeId m td nodeId).ret =
        (if m.CANrxData.b1 = 0 then LSSret.OK
         else if m.CANrxData.b1 = 0xFF then LSSret.OK_MANUFACTURER
         else LSSret.OK_ILLEGAL_ARGUMENT)) ∧
    (∀ (m : LSSmaster) (td : Nat),
      m.command = 4 → m.CANrxNew = true → m.CANrxData.b0 = 0x17 →
      (CO_LSSmaster_configureStore m td).ret =
        (if m.CANrxData.b1 = 0 then LSSret.OK
         else if m.CANrxData.b1 = 0xFF then LSSret.OK_MANUFACTURER
         else LSSret.OK_ILLEGAL_ARGUMENT)) := by
  refine ⟨?_, ?_, ?_⟩
  · intro m td bit hbit hc hrx hcs
    obtain ⟨k, hk⟩ := Option.ne_none_iff_exists'.mp hbit
    simp only [CO_LSSmaster_configureBitTiming, hk]
    rw [if_neg (by simp [hc]), if_pos hc, lssFinishCommon_ret]
    exact configureCheckWait_decode m td 0x13 hrx hcs
  · intro m td nodeId hv hc hrx hcs
    simp only [CO_LSSmaster_configureNodeId]
    rw [if_neg (by simp [hv]), if_neg (by simp [hc]), if_pos hc, lssFinishCommon_ret]
    exact configureCheckWait_decode m td 0x11 hrx hcs
  · intro m td hc hrx hcs
    simp only [CO_LSSmaster_configureStore]
    rw [if_neg (by simp [hc]), if_pos hc, lssFinishCommon_ret]
    exact configureCheckWait_decode m td 0x17 hrx hcs

/-- Claim C6 witness: concrete confirmations with byte 1 = 0xFF, 0 and 5 for the
three configure services. -/
theorem claim_C6_witness :
    (CO_LSSmaster_configureBitTiming mBitWaitEx 0 500).ret = LSSret.OK_MANUFACTURER ∧
    (CO_LSSmaster_configureNodeId mNodeWaitEx 0 5).ret = LSSret.OK ∧
    (CO_LSSmaster_configureStore mStoreWaitEx 0).ret = LSSret.OK_ILLEGAL_ARGUMENT := by
  refine ⟨?_, ?_, ?_⟩
  · rw [claim_C6.1 mBitWaitEx 0 500 (by decide) (by decide) (by decide) (by decide)]
    decide
  · rw [claim_C6.2.1 mNodeWaitEx 0 5 (by decide) (by decide) (by decide) (by decide)]
    decide
  · rw [claim_C6.2.2 mStoreWaitEx 0 (by decide) (by decide) (by decide)]
    decide

theorem lssFailReset_fail_state (s : LSSstep) :
    (lssFailReset s).ret.toInt < 0 → (lssFailReset s).m.state = 0 := by
  simp only [lssFailReset]
  split
  · intro _; rfl
  · next hneg => intro h; exact absurd h hneg

theorem configureBitTiming_state (m : LSSmaster) (td bit : Nat) :
    (CO_LSSmaster_configureBitTiming m td bit).m.state = m.state := by
  simp only [CO_LSSmaster_configureBitTiming]
  split
  · rfl
  · rw [lssFinishCommon_state]
    split
    · rfl
    · split
      · exact configureCheckWait_state _ _ _
      · rfl

theorem configureNodeId_state (m : LSSmaster) (td nodeId : Nat) :
    (CO_LSSmaster_configureNodeId m td nodeId).m.state = m.state := by
  simp only [CO_LSSmaster_configureNodeId]
  split
  · rfl
  · rw [lssFinishCommon_state]
    split
    · rfl
    · split
      · exact configureCheckWait_state _ _ _
      · rfl

theorem configureStore_state (m : LSSmaster) (td : Nat) :
    (CO_LSSmaster_configureStore m td).m.state = m.state := by
  simp only [CO_LSSmaster_configureStore]
  rw [lssFinishCommon_state]
  split
  · rfl
  · split
    · exact configureCheckWait_state _ _ _
    · rfl

theorem inquireCheckWait_state (m : LSSmaster) (td cs : Nat) :
    (CO_LSSmaster_inquireCheckWait m td cs).2.1.state = m.state := by
  simp only [CO_LSSmaster_inquireCheckWait]
  split
  · split
    · rfl
    · exact check_timeout_state _ _
  · exact check_timeout_state _ _

theorem inquireAddrPhase1_state (m : LSSmaster) (td : Nat) (addr : LSSaddress) :
    (inquireAddrPhase1 m td addr).2.1.state = m.state := by
  simp only [inquireAddrPhase1]
  repeat' split
  all_goals first | rfl | exact inquireCheckWait_state _ _ _

theorem inquireAddrPhase2_state (r0 : LSSret) (m0 : LSSmaster) (next : Nat) :
    (inquireAddrPhase2 r0 m0 next).m.state = m0.state := by
  simp only [inquireAddrPhase2, CO_LSSmaster_inquireInitiate]
  repeat' split
  all_goals rfl

theorem inquireLssAddress_state (m : LSSmaster) (td : Nat) (addr : LSSaddress) :
    (CO_LSSmaster_InquireLssAddress m td addr).1.m.state = m.state := by
  simp only [CO_LSSmaster_InquireLssAddress]
  rw [lssFinishCommon_state, inquireAddrPhase2_state, inquireAddrPhase1_state]

theorem inquire_state (m : LSSmaster) (td cs : Nat) :
    (CO_LSSmaster_Inquire m td cs).1.m.state = m.state := by
  simp only [CO_LSSmaster_Inquire]
  repeat' split
  all_goals first | rfl | exact inquireCheckWait_state _ _ _

theorem fsSendMsg_state (m : LSSmaster) (a b c d : Nat) :
    (CO_LSSmaster_FsSendMsg m a b c d).1.state = m.state := rfl

theorem fsCheckWait_state (m : LSSmaster) (td : Nat) :
    (CO_LSSmaster_FsCheckWait m td).2.state = m.state := by
  simp only [CO_LSSmaster_FsCheckWait]
  split
  · split
    · split <;> exact check_timeout_state _ _
    · exact check_timeout_state _ _
  · exact check_timeout_state _ _

theorem fsScanInitiate_state (m : LSSmaster) (sc : FsMode) (sub : Nat) :
    (CO_LSSmaster_FsScanInitiate m sc sub).m.state = m.state := by
  cases sc <;> rfl

theorem fsScanAdvance_state (m : LSSmaster) :
    (fsScanAdvance m).m.state = m.state := by
  simp only [fsScanAdvance]
  split <;> rfl

theorem fsScanWait_state (m : LSSmaster) (td : Nat) (sc : FsMode) :
    (CO_LSSmaster_FsScanWait m td sc).m.state = m.state := by
  cases sc
  case matchValue => rfl
  case skip => rfl
  case scan =>
    simp only [CO_LSSmaster_FsScanWait]
    split
    · split
      · split
        · exact check_timeout_state _ _
        · rw [fsScanAdvance_state]; exact check_timeout_state _ _
      · rw [fsScanAdvance_state]; exact check_timeout_state _ _
    · exact check_timeout_state _ _

theorem fsVerifyInitiate_state (m : LSSmaster) (sc : FsMode) (idc next : Nat) :
    (CO_LSSmaster_FsVerifyInitiate m sc idc next).m.state = m.state := by
  cases sc <;> rfl

theorem fsVerifyWait_state (m : LSSmaster) (td : Nat) (sc : FsMode) :
    (CO_LSSmaster_FsVerifyWait m td sc).2.1.state = m.state := by
  simp only [CO_LSSmaster_FsVerifyWait]
  split
  · rfl
  · split
    · split
      · split <;> exact check_timeout_state _ _
      · exact check_timeout_state _ _
    · exact check_timeout_state _ _

theorem fsFinish_ret (p : LSSstep × CO_LSSmaster_fastscan) :
    (fsFinish p).1.ret = p.1.ret := by
  simp only [fsFinish]; split <;> rfl

theorem fsFinish_state (p : LSSstep × CO_LSSmaster_fastscan) :
    (fsFinish p).1.m.state = p.1.m.state := by
  simp only [fsFinish]; split <;> rfl

theorem fsFinish_command (p : LSSstep × CO_LSSmaster_fastscan) :
    (fsFinish p).1.m.command =
      if p.1.ret ≠ .WAIT_SLAVE then 0 else p.1.m.command := by
  simp only [fsFinish]; split <;> simp_all

theorem fsEvaluate_err_state (m : LSSmaster) (td : Nat) (f : CO_LSSmaster_fastscan) :
    (fsEvaluate m td f).1.ret.toInt < 0 → (fsEvaluate m td f).1.m.state = m.state := by
  simp only [fsEvaluate]
  split
  · -- CHECK
    split
    · intro h; simp [LSSret.toInt] at h
    · intro _; exact fsCheckWait_state _ _
  · split
    · -- SCAN
      split
      · intro _
        dsimp only
        rw [fsVerifyInitiate_state, fsScanWait_state]
      · intro _; exact fsScanWait_state _ _ _
    · split
      · -- VERIFY
        split
        · split
          · intro h; simp [LSSret.toInt] at h
          · intro _
            dsimp only
            rw [fsScanInitiate_state, fsVerifyWait_state]
        · intro _; exact fsVerifyWait_state _ _ _
      · intro _; rfl

theorem identifyFastscan_err_state (m : LSSmaster) (td : Nat) (f : CO_LSSmaster_fastscan) :
    (CO_LSSmaster_IdentifyFastscan m td f).1.ret.toInt < 0 →
    (CO_LSSmaster_IdentifyFastscan m td f).1.m.state = m.state := by
  simp only [CO_LSSmaster_IdentifyFastscan]
  split
  · intro _; rfl
  · split
    · intro _; rfl
    · split
      · intro _; rfl
      · split
        · intro h; simp [LSSret.toInt] at h
        · intro h
          rw [fsFinish_ret] at h
          rw [fsFinish_state]
          exact fsEvaluate_err_state m td f h

/-- Claim C1, counterexample to the claim as stated: a store-configuration timeout
returns TIMEOUT (an error below OK) but leaves the outer state at CFG_SLECTIVE, not
WAITING — only swStateSelect has the below-OK outer reset. -/
theorem claim_C1_counterexample :
    (CO_LSSmaster_configureStore mStoreWait 1000).ret = LSSret.TIMEOUT ∧
    LSSret.toInt LSSret.TIMEOUT < 0 ∧
    (CO_LSSmaster_configureStore mStoreWait 1000).m.state = 1 := by decide

/-- Claim C1 as amended: on any return code below OK, swStateSelect leaves the
outer state at WAITING; every other driving operation leaves the outer state
unchanged (configure, inquire and inquire-address never write it; fastscan writes it
only on its successful SCAN_FINISHED return). -/
theorem claim_C1 :
    (∀ (m : LSSmaster) (td : Nat) (a : Option LSSaddress),
      (CO_LSSmaster_swStateSelect m td a).ret.toInt < 0 →
      (CO_LSSmaster_swStateSelect m td a).m.state = 0) ∧
    (∀ (m : LSSmaster) (td bit : Nat),
      (CO_LSSmaster_configureBitTiming m td bit).m.state = m.state) ∧
    (∀ (m : LSSmaster) (td nodeId : Nat),
      (CO_LSSmaster_configureNodeId m td nodeId).m.state = m.state) ∧
    (∀ (m : LSSmaster) (td : Nat),
      (CO_LSSmaster_configureStore m td).m.state = m.state) ∧
    (∀ (m : LSSmaster) (td : Nat) (addr : LSSaddress),
      (CO_LSSmaster_InquireLssAddress m td addr).1.m.state = m.state) ∧
    (∀ (m : LSSmaster) (td cs : Nat),
      (CO_LSSmaster_Inquire m td cs).1.m.state = m.state) ∧
    (∀ (m : LSSmaster) (td : Nat) (f : CO_LSSmaster_fastscan),
      (CO_LSSmaster_IdentifyFastscan m td f).1.ret.toInt < 0 →
      (CO_LSSmaster_IdentifyFastscan m td f).1.m.state = m.state) := by
  refine ⟨?_, configureBitTiming_state, configureNodeId_state, configureStore_state,
          inquireLssAddress_state, inquire_state, identifyFastscan_err_state⟩
  intro m td a h
  exact lssFailReset_fail_state _ h

/-- Claim C1 witness: swStateSelect with a node-ID command in flight returns
INVALID_STATE (below OK) and ends with the outer state WAITING; a concrete
fastscan SCAN_NOACK ends with the outer state unchanged. -/
theorem claim_C1_witness :
    (CO_LSSmaster_swStateSelect mNodeIdWait 0 none).ret.toInt < 0 ∧
    (CO_LSSmaster_swStateSelect mNodeIdWait 0 none).m.state = 0 ∧
    (CO_LSSmaster_IdentifyFastscan mFsCheck 1000 fsAllScan).1.ret.toInt < 0 ∧
    (CO_LSSmaster_IdentifyFastscan mFsCheck 1000 fsAllScan).1.m.state = mFsCheck.state := by
  refine ⟨by decide, claim_C1.1 mNodeIdWait 0 none (by decide), by decide,
          claim_C1.2.2.2.2.2.2 mFsCheck 1000 fsAllScan (by decide)⟩

theorem swStateSelect_command (m : LSSmaster) (td : Nat) (a : Option LSSaddress) :
    (CO_LSSmaster_swStateSelect m td a).ret ≠ .WAIT_SLAVE →
    (CO_LSSmaster_swStateSelect m td a).m.command = 0 := by
  simp only [CO_LSSmaster_swStateSelect]
  intro h
  rw [finReset_ret] at h
  rw [finReset_command, if_neg h]

theorem inquire_command (m : LSSmaster) (td cs : Nat) :
    (CO_LSSmaster_Inquire m td cs).1.ret ≠ .WAIT_SLAVE →
    (CO_LSSmaster_Inquire m td cs).1.m.command = 0 := by
  simp only [CO_LSSmaster_Inquire]
  repeat' split
  all_goals intro h
  all_goals first | rfl | (rename_i hneg; exact absurd h hneg)

theorem configureBitTiming_command (m : LSSmaster) (td bit : Nat) :
    (CO_LSSmaster_configureBitTiming m td bit).ret ≠ .WAIT_SLAVE →
    (CO_LSSmaster_configureBitTiming m td bit).ret ≠ .INVALID_STATE →
    (CO_LSSmaster_configureBitTiming m td bit).ret ≠ .ILLEGAL_ARGUMENT →
    (CO_LSSmaster_configureBitTiming m td bit).m.command = 0 := by
  simp only [CO_LSSmaster_configureBitTiming]
  split
  · intro _ _ h3; exact absurd rfl h3
  · intro h1 h2 _
    rw [lssFinishCommon_ret] at h1 h2
    rw [lssFinishCommon_command, if_pos ⟨h2, h1⟩]

theorem configureNodeId_command (m : LSSmaster) (td nodeId : Nat) :
    (CO_LSSmaster_configureNodeId m td nodeId).ret ≠ .WAIT_SLAVE →
    (CO_LSSmaster_configureNodeId m td nodeId).ret ≠ .INVALID_STATE →
    (CO_LSSmaster_configureNodeId m td nodeId).ret ≠ .ILLEGAL_ARGUMENT →
    (CO_LSSmaster_configureNodeId m td nodeId).m.command = 0 := by
  simp only [CO_LSSmaster_configureNodeId]
  split
  · intro _ _ h3; exact absurd rfl h3
  · intro h1 h2 _
    rw [lssFinishCommon_ret] at h1 h2
    rw [lssFinishCommon_command, if_pos ⟨h2, h1⟩]

theorem configureStore_command (m : LSSmaster) (td : Nat) :
    (CO_LSSmaster_configureStore m td).ret ≠ .WAIT_SLAVE →
    (CO_LSSmaster_configureStore m td).ret ≠ .INVALID_STATE →
    (CO_LSSmaster_configureStore m td).m.command = 0 := by
  simp only [CO_LSSmaster_configureStore]
  intro h1 h2
  rw [lssFinishCommon_ret] at h1 h2
  rw [lssFinishCommon_command, if_pos ⟨h2, h1⟩]

theorem inquireLssAddress_command (m : LSSmaster) (td : Nat) (addr : LSSaddress) :
    (CO_LSSmaster_InquireLssAddress m td addr).1.ret ≠ .WAIT_SLAVE →
    (CO_LSSmaster_InquireLssAddress m td addr).1.ret ≠ .INVALID_STATE →
    (CO_LSSmaster_InquireLssAddress m td addr).1.m.command = 0 := by
  simp only [CO_LSSmaster_InquireLssAddress]
  intro h1 h2
  rw [lssFinishCommon_ret] at h1 h2
  rw [lssFinishCommon_command, if_pos ⟨h2, h1⟩]

theorem identifyFastscan_command (m : LSSmaster) (td : Nat) (f : CO_LSSmaster_fastscan) :
    (CO_LSSmaster_IdentifyFastscan m td f).1.ret ≠ .WAIT_SLAVE →
    (CO_LSSmaster_IdentifyFastscan m td f).1.ret ≠ .INVALID_STATE →
    (CO_LSSmaster_IdentifyFastscan m td f).1.ret ≠ .ILLEGAL_ARGUMENT →
    (CO_LSSmaster_IdentifyFastscan m td f).1.m.command = 0 := by
  simp only [CO_LSSmaster_IdentifyFastscan]
  split
  · intro _ _ h3; exact absurd rfl h3
  · split
    · intro _ _ h3; exact absurd rfl h3
    · split
      · intro _ h2 _; exact absurd rfl h2
      · split
        · intro h1 _ _; exact absurd rfl h1
        · intro h1 _ _
          rw [fsFinish_ret] at h1
          rw [fsFinish_command, if_pos h1]

/-- Claim C2, counterexample to the claim as stated: configureStore called while a
node-ID configuration is in flight returns INVALID_STATE (a terminal result, not
WAIT_SLAVE) yet leaves command = CFG_NODE_ID, not WAITING. -/
theorem claim_C2_counterexample :
    (CO_LSSmaster_configureStore mNodeIdWait 0).ret = LSSret.INVALID_STATE ∧
    LSSret.INVALID_STATE ≠ LSSret.WAIT_SLAVE ∧
    (CO_LSSmaster_configureStore mNodeIdWait 0).m.command = 3 := by decide

/-- Claim C2 as amended: every terminal result other than INVALID_STATE and the
argument-validation ILLEGAL_ARGUMENT leaves command = WAITING; swStateSelect and
Inquire reset command on every terminal result, INVALID_STATE included. -/
theorem claim_C2 :
    (∀ (m : LSSmaster) (td : Nat) (a : Option LSSaddress),
      (CO_LSSmaster_swStateSelect m td a).ret ≠ .WAIT_SLAVE →
      (CO_LSSmaster_swStateSelect m td a).m.command = 0) ∧
    (∀ (m : LSSmaster) (td cs : Nat),
      (CO_LSSmaster_Inquire m td cs).1.ret ≠ .WAIT_SLAVE →
      (CO_LSSmaster_Inquire m td cs).1.m.command = 0) ∧
    (∀ (m : LSSmaster) (td bit : Nat),
      (CO_LSSmaster_configureBitTiming m td bit).ret ≠ .WAIT_SLAVE →
      (CO_LSSmaster_configureBitTiming m td bit).ret ≠ .INVALID_STATE →
      (CO_LSSmaster_configureBitTiming m td bit).ret ≠ .ILLEGAL_ARGUMENT →
      (CO_LSSmaster_configureBitTiming m td bit).m.command = 0) ∧
    (∀ (m : LSSmaster) (td nodeId : Nat),
      (CO_LSSmaster_configureNodeId m td nodeId).ret ≠ .WAIT_SLAVE →
      (CO_LSSmaster_configureNodeId m td nodeId).ret ≠ .INVALID_STATE →
      (CO_LSSmaster_configureNodeId m td nodeId).ret ≠ .ILLEGAL_ARGUMENT →
      (CO_LSSmaster_configureNodeId m td nodeId).m.command = 0) ∧
    (∀ (m : LSSmaster) (td : Nat),
      (CO_LSSmaster_configureStore m td).ret ≠ .WAIT_SLAVE →
      (CO_LSSmaster_configureStore m td).ret ≠ .INVALID_STATE →
      (CO_LSSmaster_configureStore m td).m.command = 0) ∧
    (∀ (m : LSSmaster) (td : Nat) (addr : LSSaddress),
      (CO_LSSmaster_InquireLssAddress m td addr).1.ret ≠ .WAIT_SLAVE →
      (CO_LSSmaster_InquireLssAddress m td addr).1.ret ≠ .INVALID_STATE →
      (CO_LSSmaster_InquireLssAddress m td addr).1.m.command = 0) ∧
    (∀ (m : LSSmaster) (td : Nat) (f : CO_LSSmaster_fastscan),
      (CO_LSSmaster_IdentifyFastscan m td f).1.ret ≠ .WAIT_SLAVE →
      (CO_LSSmaster_IdentifyFastscan m td f).1.ret ≠ .INVALID_STATE →
      (CO_LSSmaster_IdentifyFastscan m td f).1.ret ≠ .ILLEGAL_ARGUMENT →
      (CO_LSSmaster_IdentifyFastscan m td f).1.m.command = 0) :=
  ⟨swStateSelect_command, inquire_command, configureBitTiming_command,
   configureNodeId_command, configureStore_command, inquireLssAddress_command,
   identifyFastscan_command⟩

/-- Claim C2 witness: a concrete store-configuration timeout ends with command =
WAITING, and a concrete swStateSelect INVALID_STATE also resets command. -/
theorem claim_C2_witness :
    (CO_LSSmaster_configureStore mStoreWait 1000).ret = LSSret.TIMEOUT ∧
    (CO_LSSmaster_configureStore mStoreWait 1000).m.command = 0 ∧
    (CO_LSSmaster_swStateSelect mNodeIdWait 0 none).ret = LSSret.INVALID_STATE ∧
    (CO_LSSmaster_swStateSelect mNodeIdWait 0 none).m.command = 0 := by
  refine ⟨by decide, claim_C2.2.2.2.2.1 mStoreWait 1000 (by decide) (by decide), by decide,
          claim_C2.1 mNodeIdWait 0 none (by decide)⟩

/-- Claim C9, counterexample to the claim as stated: swStateSelect called while a
node-ID configuration is in flight returns INVALID_STATE but does NOT preserve the
in-flight command — its below-OK tail resets command (and the outer state) to
WAITING. -/
theorem claim_C9_counterexample :
    (CO_LSSmaster_swStateSelect mNodeIdWait 0 (some addrEx)).ret = LSSret.INVALID_STATE ∧
    mNodeIdWait.command = 3 ∧
    (CO_LSSmaster_swStateSelect mNodeIdWait 0 (some addrEx)).m.command = 0 := by decide

/-- Claim C9 as amended: with another command in flight (command neither WAITING nor
the operation under test), Inquire AND swStateSelect both return INVALID_STATE and
reset command to WAITING (swStateSelect also resets the outer state), while the
three configure services and IdentifyFastscan return INVALID_STATE and preserve the
in-flight command. -/
theorem claim_C9 :
    (∀ (m : LSSmaster) (td cs : Nat), m.command ≠ 0 → m.command ≠ 9 →
      (CO_LSSmaster_Inquire m td cs).1.ret = LSSret.INVALID_STATE ∧
      (CO_LSSmaster_Inquire m td cs).1.m.command = 0) ∧
    (∀ (m : LSSmaster) (td : Nat) (a : Option LSSaddress), m.command ≠ 0 → m.command ≠ 1 →
      (CO_LSSmaster_swStateSelect m td a).ret = LSSret.INVALID_STATE ∧
      (CO_LSSmaster_swStateSelect m td a).m.command = 0 ∧
      (CO_LSSmaster_swStateSelect m td a).m.state = 0) ∧
    (∀ (m : LSSmaster) (td bit k : Nat), CO_LSS_bitTimingIndex bit = some k →
      m.command ≠ 0 → m.command ≠ 2 →
      (CO_LSSmaster_configureBitTiming m td bit).ret = LSSret.INVALID_STATE ∧
      (CO_LSSmaster_configureBitTiming m td bit).m.command = m.command) ∧
    (∀ (m : LSSmaster) (td nodeId : Nat), CO_LSS_nodeIdValid nodeId = true →
      m.command ≠ 0 → m.command ≠ 3 →
      (CO_LSSmaster_configureNodeId m td nodeId).ret = LSSret.INVALID_STATE ∧
      (CO_LSSmaster_configureNodeId m td nodeId).m.command = m.command) ∧
    (∀ (m : LSSmaster) (td : Nat), m.command ≠ 0 → m.command ≠ 4 →
      (CO_LSSmaster_configureStore m td).ret = LSSret.INVALID_STATE ∧
      (CO_LSSmaster_configureStore m td).m.command = m.command) ∧
    (∀ (m : LSSmaster) (td : Nat) (f : CO_LSSmaster_fastscan),
      f.scanModes.s0 ≠ .skip → fsSkipCount f ≤ 2 → m.command ≠ 0 → m.command ≠ 10 →
      (CO_LSSmaster_IdentifyFastscan m td f).1.ret = LSSret.INVALID_STATE ∧
      (CO_LSSmaster_IdentifyFastscan m td f).1.m.command = m.command) := by
  refine ⟨?_, ?_, ?_, ?_, ?_, ?_⟩
  · intro m td cs h0 h9
    simp only [CO_LSSmaster_Inquire]
    rw [if_neg (show ¬((m.state = 1 ∨ m.state = 2) ∧ m.command = 0) by simp [h0]),
        if_neg h9]
    split
    · exact ⟨rfl, rfl⟩
    · next hneg => exact absurd (by intro h; exact LSSret.noConfusion h) hneg
  · intro m td a h0 h1
    simp only [CO_LSSmaster_swStateSelect]
    rw [if_neg (by simp [h0]), if_neg h1]
    refine ⟨?_, ?_, ?_⟩
    · rw [finReset_ret]
    · rw [finReset_command]; simp
    · rw [finReset_state]; simp [LSSret.toInt]
  · intro m td bit k hk h0 h2
    simp only [CO_LSSmaster_configureBitTiming, hk]
    rw [if_neg (by simp [h0]), if_neg h2]
    refine ⟨?_, ?_⟩
    · rw [lssFinishCommon_ret]
    · rw [lssFinishCommon_command]; simp
  · intro m td nodeId hv h0 h3
    simp only [CO_LSSmaster_configureNodeId]
    rw [if_neg (by simp [hv]), if_neg (by simp [h0]), if_neg h3]
    refine ⟨?_, ?_⟩
    · rw [lssFinishCommon_ret]
    · rw [lssFinishCommon_command]; simp
  · intro m td h0 h4
    simp only [CO_LSSmaster_configureStore]
    rw [if_neg (by simp [h0]), if_neg h4]
    refine ⟨?_, ?_⟩
    · rw [lssFinishCommon_ret]
    · rw [lssFinishCommon_command]; simp
  · intro m td f hskip hcount h0 h10
    simp only [CO_LSSmaster_IdentifyFastscan]
    rw [if_neg hskip, if_neg (by omega), if_pos (Or.inr ⟨h0, h10⟩)]
    exact ⟨rfl, rfl⟩

/-- Claim C9 witness: with a node-ID configuration in flight, a concrete Inquire
returns INVALID_STATE and resets command, while a concrete configureStore returns
INVALID_STATE and preserves the in-flight command. -/
theorem claim_C9_witness :
    (CO_LSSmaster_Inquire mNodeIdWait 0 0x5A).1.ret = LSSret.INVALID_STATE ∧
    (CO_LSSmaster_Inquire mNodeIdWait 0 0x5A).1.m.command = 0 ∧
    (CO_LSSmaster_configureStore mNodeIdWait 0).ret = LSSret.INVALID_STATE ∧
    (CO_LSSmaster_configureStore mNodeIdWait 0).m.command = mNodeIdWait.command := by
  obtain ⟨ha, hb⟩ := claim_C9.1 mNodeIdWait 0 0x5A (by decide) (by decide)
  obtain ⟨hc, hd⟩ := claim_C9.2.2.2.2.1 mNodeIdWait 0 (by decide) (by decide)
  exact ⟨ha, hb, hc, hd⟩

theorem check_timeout_fire (m : LSSmaster) (td : Nat)
    (h : m.timeout_us ≤ (m.timeoutTimer + td) % 4294967296) :
    CO_LSSmaster_check_timeout m td = (LSSret.TIMEOUT, { m with timeoutTimer := 0 }) := by
  simp only [CO_LSSmaster_check_timeout]
  rw [if_pos h]

theorem fsScanAdvance_idNumber (m : LSSmaster) :
    (fsScanAdvance m).m.fsIdNumber = m.fsIdNumber := by
  simp only [fsScanAdvance]; split <;> rfl

theorem fsScanAdvance_zero (m : LSSmaster) (h : m.fsBitChecked = 0) :
    (fsScanAdvance m).ret = LSSret.SCAN_FINISHED := by
  simp only [fsScanAdvance]; rw [if_pos h]

theorem fsScanAdvance_pos (m : LSSmaster) (h : m.fsBitChecked ≠ 0) :
    (fsScanAdvance m).ret = LSSret.WAIT_SLAVE ∧
    (fsScanAdvance m).m.fsBitChecked = m.fsBitChecked - 1 := by
  simp only [fsScanAdvance]; rw [if_neg h]; exact ⟨rfl, rfl⟩

/-- Claim C4: the fastscan SCAN phase starts at bit 31 (FsScanInitiate) and, per
step, after the timeout window: no pending frame sets bit bitChecked of the id
number; a pending IDENT_SLAVE frame leaves the id number unchanged; a pending frame
with any other command specifier returns SCAN_FAILED; otherwise the step finishes
with SCAN_FINISHED at bit 0 and else decrements bitChecked and keeps waiting. -/
theorem claim_C4 :
    (∀ (m : LSSmaster) (sub : Nat),
      (CO_LSSmaster_FsScanInitiate m .scan sub).m.fsBitChecked = 31) ∧
    (∀ (m : LSSmaster) (td : Nat),
      m.timeout_us ≤ (m.timeoutTimer + td) % 4294967296 →
      (m.CANrxNew = false →
        (CO_LSSmaster_FsScanWait m td .scan).m.fsIdNumber =
          (m.fsIdNumber ||| (1 <<< m.fsBitChecked)) % 4294967296) ∧
      (m.CANrxNew = true → m.CANrxData.b0 = 0x4F →
        (CO_LSSmaster_FsScanWait m td .scan).m.fsIdNumber = m.fsIdNumber) ∧
      (m.CANrxNew = true → m.CANrxData.b0 ≠ 0x4F →
        (CO_LSSmaster_FsScanWait m td .scan).ret = LSSret.SCAN_FAILED) ∧
      (m.CANrxNew = false ∨ m.CANrxData.b0 = 0x4F →
        (m.fsBitChecked = 0 →
          (CO_LSSmaster_FsScanWait m td .scan).ret = LSSret.SCAN_FINISHED) ∧
        (m.fsBitChecked ≠ 0 →
          (CO_LSSmaster_FsScanWait m td .scan).ret = LSSret.WAIT_SLAVE ∧
          (CO_LSSmaster_FsScanWait m td .scan).m.fsBitChecked = m.fsBitChecked - 1))) := by
  constructor
  · intro m sub; rfl
  · intro m td h
    simp only [CO_LSSmaster_FsScanWait, check_timeout_fire m td h]
    refine ⟨?_, ?_, ?_, ?_⟩
    · intro hrx
      rw [if_pos trivial, if_neg (by simp [hrx]), fsScanAdvance_idNumber]
    · intro hrx hcs
      rw [if_pos trivial, if_pos (by simp [hrx]), if_neg (by simp [hcs]), fsScanAdvance_idNumber]
    · intro hrx hcs
      rw [if_pos trivial, if_pos (by simp [hrx]), if_pos (by simp [hcs])]
    · intro hor
      rcases hor with hrx | hcs
      · rw [if_pos trivial, if_neg (by simp [hrx])]
        exact ⟨fun h0 => fsScanAdvance_zero _ h0, fun h0 => fsScanAdvance_pos _ h0⟩
      · by_cases hrx : m.CANrxNew = true
        · rw [if_pos trivial, if_pos (by simp [hrx]), if_neg (by simp [hcs])]
          exact ⟨fun h0 => fsScanAdvance_zero _ h0, fun h0 => fsScanAdvance_pos _ h0⟩
        · rw [if_pos trivial, if_neg (by simpa using hrx)]
          exact ⟨fun h0 => fsScanAdvance_zero _ h0, fun h0 => fsScanAdvance_pos _ h0⟩

/-- Claim C4 witness: at bit 31 with the timeout expired: no frame sets bit 31 and
continues at bit 30; an IDENT_SLAVE frame leaves the id number 0; a frame with
command specifier 0x50 fails the scan; and FsScanInitiate starts at bit 31. -/
theorem claim_C4_witness :
    (CO_LSSmaster_FsScanInitiate mFresh .scan 0).m.fsBitChecked = 31 ∧
    (CO_LSSmaster_FsScanWait mFsScan 1000 .scan).m.fsIdNumber = 2147483648 ∧
    (CO_LSSmaster_FsScanWait mFsScan 1000 .scan).ret = LSSret.WAIT_SLAVE ∧
    (CO_LSSmaster_FsScanWait mFsScan 1000 .scan).m.fsBitChecked = 30 ∧
    (CO_LSSmaster_FsScanWait
      { mFsScan with CANrxNew := true, CANrxData := { zeroFrame with b0 := 0x4F } }
      1000 .scan).m.fsIdNumber = 0 ∧
    (CO_LSSmaster_FsScanWait
      { mFsScan with CANrxNew := true, CANrxData := { zeroFrame with b0 := 0x50 } }
      1000 .scan).ret = LSSret.SCAN_FAILED := by
  refine ⟨claim_C4.1 mFresh 0, ?_, ?_, ?_, ?_, ?_⟩
  · have h := (claim_C4.2 mFsScan 1000 (by decide)).1 (by decide)
    rw [h]; decide
  · exact (((claim_C4.2 mFsScan 1000 (by decide)).2.2.2 (Or.inl (by decide))).2 (by decide)).1
  · exact (((claim_C4.2 mFsScan 1000 (by decide)).2.2.2 (Or.inl (by decide))).2 (by decide)).2
  · exact (claim_C4.2 _ 1000 (by decide)).2.1 (by decide) (by decide)
  · exact (claim_C4.2 _ 1000 (by decide)).2.2.1 (by decide) (by decide)

/-- Claim C7: the restore handler writes exactly the four 0xFF bytes of the empty
signature to the signature slot, reads that slot back, fails with the hardware-error
kind iff the read-back differs from 0xFFFFFFFF or the write failed, makes no other
adapter access (so the data region is untouched), and leaves every field of the
entry (its RAM bytes included) unchanged. -/
theorem claim_C7 (entry : CO_storage_entry) (writeOk : Bool) (signatureRead : Nat) :
    (restoreEeprom entry writeOk signatureRead).2.1 = entry ∧
    (restoreEeprom entry writeOk signatureRead).2.2 =
      [EeOp.writeBlock [255, 255, 255, 255] entry.eepromAddrSignature,
       EeOp.readBlock entry.eepromAddrSignature 4] ∧
    ((restoreEeprom entry writeOk signatureRead).1 = ODR.hw ↔
      (signatureRead ≠ 4294967295 ∨ writeOk = false)) := by
  simp only [restoreEeprom]
  split
  · next hcond => exact ⟨rfl, rfl, iff_of_true rfl hcond⟩
  · next hcond => exact ⟨rfl, rfl, iff_of_false (fun hh => ODR.noConfusion hh) hcond⟩

theorem storageInitLoop_cons_proj (mem : Nat → Nat) (cap sigBase i alloc : Nat)
    (err : Nat) (ret : CO_ReturnError) (e : CO_storage_entry)
    (rest : List CO_storage_entry) (hlen : 0 < e.len) (hsub : 2 ≤ e.subIndexOD)
    (hcap : alloc + e.len ≤ cap) :
    ((storageInitLoop mem cap sigBase i alloc false err ret (e :: rest)).1,
     (storageInitLoop mem cap sigBase i alloc false err ret (e :: rest)).2.1) =
      ((storageInitLoop mem cap sigBase (i + 1) (alloc + e.len) false
          (if entryDataCorrupt mem sigBase i alloc e then
            err ||| (1 <<< min e.subIndexOD 31) else err)
          (if entryDataCorrupt mem sigBase i alloc e then
            CO_ReturnError.dataCorrupt else ret) rest).1,
       (storageInitLoop mem cap sigBase (i + 1) (alloc + e.len) false
          (if entryDataCorrupt mem sigBase i alloc e then
            err ||| (1 <<< min e.subIndexOD 31) else err)
          (if entryDataCorrupt mem sigBase i alloc e then
            CO_ReturnError.dataCorrupt else ret) rest).2.1) := by
  simp only [storageInitLoop]
  rw [if_neg (by omega)]
  have hovf : (false || decide (cap < alloc + e.len)) = false := by
    rw [Bool.false_or, decide_eq_false_iff_not]
    omega
  rw [hovf, if_neg (by simp)]

theorem storageInitLoop_persist (mem : Nat → Nat) (cap sigBase b : Nat) :
    ∀ (l : List CO_storage_entry) (i alloc err : Nat),
      (∀ e ∈ l, 0 < e.len ∧ 2 ≤ e.subIndexOD) →
      alloc + (l.map (fun e => e.len)).sum ≤ cap →
      Nat.testBit err b = true →
      Nat.testBit (storageInitLoop mem cap sigBase i alloc false err
        CO_ReturnError.dataCorrupt l).2.1 b = true ∧
      (storageInitLoop mem cap sigBase i alloc false err
        CO_ReturnError.dataCorrupt l).1 = CO_ReturnError.dataCorrupt
  | [], _, _, _, _, _, hb => ⟨hb, rfl⟩
  | e :: rest, i, alloc, err, hv, hcap, hb => by
      have he := hv e (List.mem_cons_self e rest)
      have hcap1 : alloc + e.len ≤ cap := by
        simp only [List.map_cons, List.sum_cons] at hcap
        omega
      have hcons := storageInitLoop_cons_proj mem cap sigBase i alloc err
        CO_ReturnError.dataCorrupt e rest he.1 he.2 hcap1
      have h1 := congrArg Prod.fst hcons
      have h2 := congrArg (fun p => p.2) hcons
      simp only at h1 h2
      rw [h1, h2, ite_self]
      apply storageInitLoop_persist mem cap sigBase b rest (i + 1) (alloc + e.len)
      · intro x hx; exact hv x (List.mem_cons_of_mem _ hx)
      · simp only [List.map_cons, List.sum_cons] at hcap
        omega
      · split
        · rw [Nat.testBit_lor, hb, Bool.true_or]
        · exact hb

theorem storageInitLoop_corrupt (mem : Nat → Nat) (cap sigBase : Nat) :
    ∀ (pre : List CO_storage_entry) (e : CO_storage_entry) (post : List CO_storage_entry)
      (i alloc err : Nat) (ret : CO_ReturnError),
      (∀ x ∈ pre ++ e :: post, 0 < x.len ∧ 2 ≤ x.subIndexOD) →
      alloc + ((pre ++ e :: post).map (fun x => x.len)).sum ≤ cap →
      entryDataCorrupt mem sigBase (i + pre.length)
        (alloc + (pre.map (fun x => x.len)).sum) e = true →
      Nat.testBit (storageInitLoop mem cap sigBase i alloc false err ret
        (pre ++ e :: post)).2.1 (min e.subIndexOD 31) = true ∧
      (storageInitLoop mem cap sigBase i alloc false err ret (pre ++ e :: post)).1 =
        CO_ReturnError.dataCorrupt
  | [], e, post, i, alloc, err, ret, hv, hcap, hcor => by
      simp only [List.nil_append] at hv hcap ⊢
      simp only [List.length_nil, List.map_nil, List.sum_nil, Nat.add_zero] at hcor
      have he := hv e (List.mem_cons_self e post)
      have hcap1 : alloc + e.len ≤ cap := by
        simp only [List.map_cons, List.sum_cons] at hcap
        omega
      have hcons := storageInitLoop_cons_proj mem cap sigBase i alloc err ret e post
        he.1 he.2 hcap1
      have h1 := congrArg Prod.fst hcons
      have h2 := congrArg (fun p => p.2) hcons
      simp only at h1 h2
      rw [h1, h2, hcor, if_pos rfl, if_pos rfl]
      apply storageInitLoop_persist mem cap sigBase (min e.subIndexOD 31) post
        (i + 1) (alloc + e.len)
      · intro x hx; exact hv x (List.mem_cons_of_mem _ hx)
      · simp only [List.map_cons, List.sum_cons] at hcap
        omega
      · rw [Nat.testBit_lor, Nat.one_shiftLeft]
        simp [Nat.testBit_two_pow_self]
  | p :: pre, e, post, i, alloc, err, ret, hv, hcap, hcor => by
      simp only [List.cons_append] at hv hcap ⊢
      have hp := hv p (List.mem_cons_self p (pre ++ e :: post))
      have hcap1 : alloc + p.len ≤ cap := by
        simp only [List.map_cons, List.sum_cons] at hcap
        omega
      have hcons := storageInitLoop_cons_proj mem cap sigBase i alloc err ret p
        (pre ++ e :: post) hp.1 hp.2 hcap1
      have h1 := congrArg Prod.fst hcons
      have h2 := congrArg (fun p => p.2) hcons
      simp only at h1 h2
      rw [h1, h2]
      apply storageInitLoop_corrupt mem cap sigBase pre e post (i + 1) (alloc + p.len)
      · intro x hx; exact hv x (List.mem_cons_of_mem _ hx)
      · simp only [List.map_cons, List.sum_cons] at hcap
        omega
      · simp only [List.length_cons, List.map_cons, List.sum_cons] at hcor
        have hidx : i + (pre.length + 1) = i + 1 + pre.length := by omega
        have haddr : alloc + (p.len + (pre.map (fun x => x.len)).sum) =
            alloc + p.len + (pre.map (fun x => x.len)).sum := by omega
        rw [hidx, haddr] at hcor
        exact hcor

theorem entryDataCorrupt_auto (mem : Nat → Nat) (sigBase i dataAddr : Nat)
    (e : CO_storage_entry) (hauto : e.attr &&& CO_storage_auto ≠ 0)
    (hsig : entrySignature mem sigBase i % 65536 = e.len % 65536) :
    entryDataCorrupt mem sigBase i dataAddr e = false := by
  simp only [entryDataCorrupt]
  rw [if_neg (by simpa using hsig), if_pos hauto]

/-- Claim C3: during storage initialization with validly registered entries that fit
the device, every entry whose stored signature fails its check (low half differing
from the entry length, or, for non-AUTO entries, recomputed CRC differing from the
high half) gets bit min(subIndexOD, 31) set in storageInitError and makes the
function return the data-corrupt code, and later entries never clear either; AUTO
entries skip the CRC comparison entirely. -/
theorem claim_C3 :
    (∀ (mem : Nat → Nat) (cap : Nat) (pre post : List CO_storage_entry)
       (e : CO_storage_entry) (errIn : Nat),
      (∀ x ∈ pre ++ e :: post, 0 < x.len ∧ 2 ≤ x.subIndexOD) →
      4 * (pre ++ e :: post).length + ((pre ++ e :: post).map (fun x => x.len)).sum ≤ cap →
      entryDataCorrupt mem 0 pre.length
        (4 * (pre ++ e :: post).length + (pre.map (fun x => x.len)).sum) e = true →
      Nat.testBit (CO_storageEeprom_init mem cap true errIn (pre ++ e :: post)).2.1
        (min e.subIndexOD 31) = true ∧
      (CO_storageEeprom_init mem cap true errIn (pre ++ e :: post)).1 =
        CO_ReturnError.dataCorrupt) ∧
    (∀ (mem : Nat → Nat) (sigBase i dataAddr : Nat) (e : CO_storage_entry),
      e.attr &&& CO_storage_auto ≠ 0 →
      entrySignature mem sigBase i % 65536 = e.len % 65536 →
      entryDataCorrupt mem sigBase i dataAddr e = false) := by
  constructor
  · intro mem cap pre post e errIn hv hcap hcor
    simp only [CO_storageEeprom_init]
    rw [if_neg (by simp), if_neg (by simp)]
    have hovf : decide (cap < 4 * (pre ++ e :: post).length) = false := by
      rw [decide_eq_false_iff_not]
      have hnn : 0 ≤ ((pre ++ e :: post).map (fun x => x.len)).sum := Nat.zero_le _
      omega
    rw [hovf]
    have := storageInitLoop_corrupt mem cap 0 pre e post 0 (4 * (pre ++ e :: post).length)
      0 CO_ReturnError.no hv hcap (by simpa using hcor)
    simpa using this
  · exact entryDataCorrupt_auto

/-- Claim C3 witness: a single 2-byte entry at sub-index 2 whose EEPROM data byte
was flipped after the save gets bit 2 set in storageInitError with the data-corrupt
return code; the same image with the AUTO attribute set is not flagged. -/
theorem claim_C3_witness :
    (∀ x ∈ [entC3], 0 < x.len ∧ 2 ≤ x.subIndexOD) ∧
    Nat.testBit (CO_storageEeprom_init memC3 100 true 0 [entC3]).2.1 2 = true ∧
    (CO_storageEeprom_init memC3 100 true 0 [entC3]).1 = CO_ReturnError.dataCorrupt ∧
    entryDataCorrupt memC3 0 0 4 { entC3 with attr := 2 } = false := by
  refine ⟨by decide, ?_, ?_, ?_⟩
  · exact (claim_C3.1 memC3 100 [] [] entC3 0 (by decide) (by decide) (by decide)).1
  · exact (claim_C3.1 memC3 100 [] [] entC3 0 (by decide) (by decide) (by decide)).2
  · exact claim_C3.2 memC3 0 0 4 { entC3 with attr := 2 } (by decide) (by decide)

end CANopenNode
